import Mathlib

/-!
Shallow embedding of the schedule-validation engine of the airline-scheduling
repository (backend/app/agents/schedule_validation), together with theorems
settling the specification claims about it.

Modelling conventions:
* Times of day are `Nat` seconds since midnight (the source parses `HH:MM:SS`
  strings into `datetime.time` values; all comparisons and differences the
  source performs on them are mirrored exactly in the seconds domain, and
  fractional-minute or fractional-hour comparisons of the source are mirrored
  by the equivalent integer comparison on seconds).
* Calendar dates are `Nat` day numbers (the source compares ISO `YYYY-MM-DD`
  strings or `date` values, whose order coincides with the day-number order).
* The wall-clock date the source obtains from `datetime.now()` /
  `datetime.today()` is an explicit parameter `nowD`; the date the database
  supplies for SQL `CURRENT_DATE` is an explicit parameter `today`.
* Database tables are lists of rows carried in a `DB` record; SQL queries are
  translated into the corresponding filters/finds over those lists.
* Issue records keep the fields that identify an issue (severity, category,
  flight reference, issue_type).  The free-text description /
  recommended_action / impact strings and per-issue diagnostic extras of the
  source are functions of the data retained here and are omitted.
-/

/-- Flight record as produced by `load_schedule_data` in
`agents/schedule_validation/agent.py` (one row of the `flights` table). -/
structure Flight where
  flight_id : String
  flight_number : String
  carrier_code : String
  origin_airport : String
  destination_airport : String
  departure_time : Nat
  arrival_time : Nat
  departure_day_offset : Int := 0
  arrival_day_offset : Int := 0
  operating_days : String
  effective_from : Option Nat := none
  effective_to : Option Nat := none
  aircraft_type : String
  service_type : String := "J"
  frequency_per_week : Option Nat := none
  aircraft_registration : Option String := none
  operating_carrier : Option String := none
  is_ferry : Bool := false
deriving Repr, DecidableEq, Inhabited

/-- Validation issue record (identifying fields only, see the module comment). -/
structure Issue where
  severity : String
  category : String
  flight_id : String
  flight_number : String
  issue_type : String
deriving Repr, DecidableEq, Inhabited

/-- Number of seconds in a day. -/
def secondsPerDay : Nat := 86400

/-- Models Python `datetime.combine(d, t).time()`: the date part is discarded
again by `.time()`, so the result is exactly the time-of-day argument. -/
def combineTime (_d t : Nat) : Nat := t

/-- Overnight-aware difference in seconds between two times of day, both
anchored on wall-clock date `d` (`datetime.combine(today, t)`), adding one day
to the second operand if it is earlier: the common
`if dt2 < dt1: dt2 += timedelta(days=1)` pattern of the validators. -/
def timeDiffSecondsD (d t1 t2 : Nat) : Nat :=
  if d * secondsPerDay + t2 < d * secondsPerDay + t1 then
    (d * secondsPerDay + t2 + secondsPerDay) - (d * secondsPerDay + t1)
  else
    (d * secondsPerDay + t2) - (d * secondsPerDay + t1)

/-- Overnight-aware gap in whole minutes (`int(total_seconds / 60)` of the
source, which truncates; the operand is non-negative). -/
def timeDiffMinutesD (d t1 t2 : Nat) : Nat :=
  timeDiffSecondsD d t1 t2 / 60

/-- Flight duration in seconds used by `_validate_daily_utilization` in
`aircraft_validator.py`: the arrival is re-anchored on the next day when it is
earlier than the departure. -/
def flightDurationSecondsD (d depT arrT : Nat) : Nat :=
  (if arrT < depT then (d + 1) * secondsPerDay + arrT else d * secondsPerDay + arrT)
    - (d * secondsPerDay + depT)

/-- Turnaround in seconds as computed by `_validate_turnaround` in
`aircraft_validator.py`.  The source's overnight adjustment
`datetime.combine(now.date() + 1 day, current_departure).time()` discards the
added day again via `.time()` (see `combineTime`), so the result can be
negative. -/
def turnaroundSecondsD (d prevArr curDep : Nat) : Int :=
  let currentDeparture := if curDep < prevArr then combineTime (d + 1) curDep else curDep
  ((d * secondsPerDay + currentDeparture : Nat) : Int)
    - ((d * secondsPerDay + prevArr : Nat) : Int)

/-- Models `_add_minutes_to_time` in `crew_validator.py`:
`datetime.combine(today, t) + timedelta(minutes=m)`, then `.time()` (wraps
modulo one day). -/
def addMinutesToTime (d t : Nat) (m : Int) : Nat :=
  ((((d * secondsPerDay + t : Nat) : Int) + m * 60) % ((secondsPerDay : Nat) : Int)).toNat

theorem timeDiffSecondsD_indep (d t1 t2 : Nat) :
    timeDiffSecondsD d t1 t2 = timeDiffSecondsD 0 t1 t2 := by
  simp only [timeDiffSecondsD, secondsPerDay]
  split_ifs <;> omega

theorem timeDiffMinutesD_indep (d t1 t2 : Nat) :
    timeDiffMinutesD d t1 t2 = timeDiffMinutesD 0 t1 t2 := by
  simp only [timeDiffMinutesD, timeDiffSecondsD_indep]

theorem flightDurationSecondsD_indep (d depT arrT : Nat) :
    flightDurationSecondsD d depT arrT = flightDurationSecondsD 0 depT arrT := by
  simp only [flightDurationSecondsD, secondsPerDay]
  split_ifs <;> omega

theorem turnaroundSecondsD_eq (d prevArr curDep : Nat) :
    turnaroundSecondsD d prevArr curDep = (curDep : Int) - (prevArr : Int) := by
  simp only [turnaroundSecondsD, combineTime, secondsPerDay]
  split_ifs <;> (push_cast; omega)

theorem addMinutesToTime_indep (d t : Nat) (m : Int) :
    addMinutesToTime d t m = addMinutesToTime 0 t m := by
  have h : (((d * secondsPerDay + t : Nat) : Int) + m * 60) % ((secondsPerDay : Nat) : Int)
      = (((0 * secondsPerDay + t : Nat) : Int) + m * 60) % ((secondsPerDay : Nat) : Int) := by
    simp only [secondsPerDay]
    push_cast
    rw [show ((d : Int) * 86400 + ↑t + m * 60) = (↑t + m * 60) + ↑d * 86400 from by ring,
        Int.add_mul_emod_self]
    simp only [zero_add]
  simp only [addMinutesToTime, h]

/-- Python's `x or default` on an optional number: `None` and `0` both fall
back to the default. -/
def orDefaultNat (o : Option Nat) (dflt : Nat) : Nat :=
  match o with
  | none => dflt
  | some n => if n = 0 then dflt else n

/-- Truthiness of an optional string (Python `if s:`). -/
def truthyStr (o : Option String) : Bool :=
  match o with
  | none => false
  | some s => !(s == "")

/-- Truthiness of an optional number (Python `if n:`). -/
def truthyNat (o : Option Nat) : Bool :=
  match o with
  | none => false
  | some n => !(n == 0)

/-! Grouping into a Python `dict` of lists: keys keep first-insertion order and
each key's list keeps append order, exactly as the `_group_by_*` helpers and
`defaultdict(list)` groupings of the validators behave. -/

/-- Append `a` to key `k`'s group, creating the group at the end if absent. -/
def insertGrouped {κ α : Type} [DecidableEq κ]
    (acc : List (κ × List α)) (k : κ) (a : α) : List (κ × List α) :=
  if acc.any (fun p => p.1 = k) then
    acc.map (fun p => if p.1 = k then (p.1, p.2 ++ [a]) else p)
  else
    acc ++ [(k, [a])]

/-- Group a list by an optional key, skipping elements whose key is `none`
(the Python groupers skip falsy keys before inserting). -/
def groupByKey {κ α : Type} [DecidableEq κ]
    (key : α → Option κ) (l : List α) : List (κ × List α) :=
  l.foldl
    (fun acc a =>
      match key a with
      | none => acc
      | some k => insertGrouped acc k a)
    []

theorem insertGrouped_sound {κ α : Type} [DecidableEq κ]
    {C : α → κ → Prop} {acc : List (κ × List α)} {k : κ} {a : α}
    (hacc : ∀ p ∈ acc, ∀ g ∈ p.2, C g p.1) (ha : C a k) :
    ∀ p ∈ insertGrouped acc k a, ∀ g ∈ p.2, C g p.1 := by
  intro p hp g hg
  unfold insertGrouped at hp
  split at hp
  · rcases List.mem_map.mp hp with ⟨q, hq, hpq⟩
    by_cases hqk : q.1 = k
    · rw [if_pos hqk] at hpq
      subst hpq
      rcases List.mem_append.mp hg with hg' | hg'
      · exact hacc q hq g hg'
      · simp only [List.mem_singleton] at hg'
        subst hg'
        simpa [hqk] using ha
    · rw [if_neg hqk] at hpq
      subst hpq
      exact hacc q hq g hg
  · rcases List.mem_append.mp hp with hp' | hp'
    · exact hacc p hp' g hg
    · simp only [List.mem_singleton] at hp'
      subst hp'
      simp only [List.mem_singleton] at hg
      subst hg
      exact ha

theorem groupByKey_aux {κ α : Type} [DecidableEq κ]
    (key : α → Option κ) (C : α → κ → Prop) :
    ∀ (l : List α) (acc : List (κ × List α)),
      (∀ p ∈ acc, ∀ g ∈ p.2, C g p.1) →
      (∀ a k, a ∈ l → key a = some k → C a k) →
      ∀ p ∈ l.foldl
          (fun acc a =>
            match key a with
            | none => acc
            | some k => insertGrouped acc k a)
          acc,
        ∀ g ∈ p.2, C g p.1 := by
  intro l
  induction l with
  | nil =>
    intro acc hacc _ p hp
    exact hacc p hp
  | cons a l ih =>
    intro acc hacc hl p hp
    simp only [List.foldl_cons] at hp
    rcases hka : key a with _ | k
    · rw [hka] at hp
      exact ih acc hacc (fun b kb hb hkb => hl b kb (List.mem_cons_of_mem a hb) hkb) p hp
    · rw [hka] at hp
      exact ih (insertGrouped acc k a)
        (insertGrouped_sound hacc (hl a k (List.mem_cons_self a l) hka))
        (fun b kb hb hkb => hl b kb (List.mem_cons_of_mem a hb) hkb) p hp

/-- Every member of a group produced by `groupByKey` comes from the input list
and has the group's key. -/
theorem groupByKey_mem {κ α : Type} [DecidableEq κ]
    (key : α → Option κ) (l : List α) :
    ∀ p ∈ groupByKey key l, ∀ g ∈ p.2, g ∈ l ∧ key g = some p.1 :=
  groupByKey_aux key (fun g k => g ∈ l ∧ key g = some k) l []
    (by intro p hp; cases hp)
    (fun a k ha hk => ⟨ha, hk⟩)

/-! Stable sorting by a `Nat` key, matching Python's stable `sorted`. -/

/-- Insert before the first element with a key not smaller than the new
element's key (keeps earlier elements with equal keys in front: stable). -/
def insertSorted {α : Type} (key : α → Nat) (a : α) : List α → List α
  | [] => [a]
  | b :: l => if key a ≤ key b then a :: b :: l else b :: insertSorted key a l

/-- Stable insertion sort by key; agrees with Python's stable `sorted`. -/
def sortByKey {α : Type} (key : α → Nat) (l : List α) : List α :=
  l.foldr (insertSorted key) []

theorem mem_insertSorted {α : Type} (key : α → Nat) (a g : α) :
    ∀ l : List α, g ∈ insertSorted key a l ↔ g = a ∨ g ∈ l := by
  intro l
  induction l with
  | nil => simp [insertSorted]
  | cons b l ih =>
    simp only [insertSorted]
    split_ifs
    · simp [List.mem_cons]
    · simp only [List.mem_cons, ih]
      tauto

theorem mem_sortByKey {α : Type} (key : α → Nat) (g : α) :
    ∀ l : List α, g ∈ sortByKey key l ↔ g ∈ l := by
  intro l
  induction l with
  | nil => simp [sortByKey]
  | cons b l ih =>
    simp only [sortByKey, List.foldr_cons] at *
    rw [mem_insertSorted, ih, List.mem_cons]

/-! PatternValidator (`validators/pattern_validator.py`). -/

namespace PatternValidator

/-- Valid operating-days characters (`VALID_OPERATING_CHARS`). -/
def VALID_OPERATING_CHARS : List Char := ['1', '2', '3', '4', '5', '6', '7', 'X']

/-- Characters counting as an active operating day (string `"1234567"`). -/
def DAY_DIGITS : List Char := ['1', '2', '3', '4', '5', '6', '7']

/-- Hub airports of `_validate_hub_banks`, in the literal's textual order. -/
def HUB_AIRPORTS : List String :=
  ["ATL", "DFW", "ORD", "LAX", "DEN", "JFK", "SFO", "IAH",
   "LHR", "CDG", "FRA", "AMS", "DXB", "SIN", "HKG"]

/-- Translation of `_validate_operating_days`. -/
def validateOperatingDays (f : Flight) : List Issue :=
  let operating_days := f.operating_days
  if operating_days.length ≠ 7 then
    [{ severity := "critical", category := "pattern_validation",
       flight_id := f.flight_id, flight_number := f.flight_number,
       issue_type := "invalid_operating_days_length" }]
  else
    (if operating_days.toList.any (fun c => !(VALID_OPERATING_CHARS.contains c)) then
      [{ severity := "critical", category := "pattern_validation",
         flight_id := f.flight_id, flight_number := f.flight_number,
         issue_type := "invalid_operating_days_chars" }]
    else []) ++
    (if operating_days == "XXXXXXX"
        || !(operating_days.toList.any (fun c => DAY_DIGITS.contains c)) then
      [{ severity := "high", category := "pattern_validation",
         flight_id := f.flight_id, flight_number := f.flight_number,
         issue_type := "no_operating_days" }]
    else [])

/-- Translation of `_validate_frequency`. -/
def validateFrequency (flights : List Flight) : List Issue :=
  flights.flatMap (fun f =>
    let actual_freq := (f.operating_days.toList.filter (fun c => DAY_DIGITS.contains c)).length
    if truthyNat f.frequency_per_week && !(actual_freq == f.frequency_per_week.getD 0) then
      [{ severity := "medium", category := "pattern_validation",
         flight_id := f.flight_id, flight_number := f.flight_number,
         issue_type := "frequency_mismatch" }]
    else [])

/-- Translation of `_validate_equipment_consistency`. -/
def validateEquipmentConsistency (flights : List Flight) : List Issue :=
  let flights_by_number :=
    groupByKey (fun f => some
      (f.carrier_code, f.flight_number, f.origin_airport, f.destination_airport)) flights
  flights_by_number.flatMap (fun p =>
    let aircraft_types := (p.2.map (fun f => f.aircraft_type)).dedup
    if aircraft_types.length > 1 then
      [{ severity := "medium", category := "pattern_validation",
         flight_id := p.2.headI.flight_id, flight_number := p.1.2.1,
         issue_type := "inconsistent_equipment" }]
    else [])

/-- Translation of `_average_time` (minutes-since-midnight average, returned
as seconds of a zero-second `time`). -/
def averageTime (times : List Nat) : Nat :=
  if times.isEmpty then 0
  else (((times.map (fun t => t / 60)).sum) / times.length) * 60

/-- Translation of `_check_bank_structure`. -/
def checkBankStructure (nowD : Nat) (arrivals departures : List Flight) : List Issue :=
  let arrival_times := sortByKey id (arrivals.map (fun f => f.arrival_time))
  let departure_times := sortByKey id (departures.map (fun f => f.departure_time))
  if arrival_times.isEmpty || departure_times.isEmpty then []
  else
    let avg_arrival := averageTime arrival_times
    let avg_departure := averageTime departure_times
    let gap_minutes := timeDiffMinutesD nowD avg_arrival avg_departure
    if gap_minutes < 30 then
      [{ severity := "low", category := "pattern_validation",
         flight_id := "N/A", flight_number := "Hub pattern",
         issue_type := "insufficient_connection_buffer" }]
    else if gap_minutes > 180 then
      [{ severity := "low", category := "pattern_validation",
         flight_id := "N/A", flight_number := "Hub pattern",
         issue_type := "excessive_connection_buffer" }]
    else []

/-- Translation of `_validate_hub_banks`. -/
def validateHubBanks (nowD : Nat) (flights : List Flight) : List Issue :=
  HUB_AIRPORTS.flatMap (fun hub =>
    let hub_arrivals := flights.filter (fun f => f.destination_airport == hub)
    let hub_departures := flights.filter (fun f => f.origin_airport == hub)
    if !hub_arrivals.isEmpty && !hub_departures.isEmpty then
      checkBankStructure nowD hub_arrivals hub_departures
    else [])

/-- Translation of `_validate_schedule_symmetry`. -/
def validateScheduleSymmetry (flights : List Flight) : List Issue :=
  let route_pairs :=
    groupByKey (fun f =>
      some (if f.origin_airport ≤ f.destination_airport
            then (f.origin_airport, f.destination_airport)
            else (f.destination_airport, f.origin_airport))) flights
  route_pairs.flatMap (fun p =>
    let outbound_count := (p.2.filter (fun f => f.origin_airport == p.1.1)).length
    let inbound_count := (p.2.filter (fun f => !(f.origin_airport == p.1.1))).length
    if ((outbound_count : Int) - (inbound_count : Int)).natAbs > 1 then
      [{ severity := "medium", category := "pattern_validation",
         flight_id := "N/A", flight_number := "Route pattern",
         issue_type := "schedule_asymmetry" }]
    else [])

/-- Translation of `_validate_seasonal_patterns`. -/
def validateSeasonalPatterns (flights : List Flight) : List Issue :=
  let flights_by_number :=
    groupByKey (fun f => some (f.carrier_code, f.flight_number)) flights
  flights_by_number.flatMap (fun p =>
    let sorted_flights := sortByKey (fun f => f.effective_from.getD 0) p.2
    (sorted_flights.zip sorted_flights.tail).flatMap (fun q =>
      match q.1.effective_to, q.2.effective_from with
      | some current_end, some next_start =>
        (if current_end ≥ next_start then
          [{ severity := "high", category := "pattern_validation",
             flight_id := q.2.flight_id, flight_number := p.1.2,
             issue_type := "overlapping_effective_dates" }]
        else []) ++
        (if (Int.ofNat next_start - Int.ofNat current_end) > 1 then
          [{ severity := "low", category := "pattern_validation",
             flight_id := q.2.flight_id, flight_number := p.1.2,
             issue_type := "gap_in_effective_dates" }]
        else [])
      | _, _ => []))

/-- Translation of `PatternValidator.validate`. -/
def validate (nowD : Nat) (flights : List Flight) : List Issue :=
  (flights.flatMap validateOperatingDays)
    ++ validateFrequency flights
    ++ validateEquipmentConsistency flights
    ++ validateHubBanks nowD flights
    ++ validateScheduleSymmetry flights
    ++ validateSeasonalPatterns flights

end PatternValidator

/-! Reference-database snapshot: one list of rows per table the validators
query, translated from the SQL in the validator sources. -/

/-- Row of the `aircraft_availability` table (`_get_aircraft_info` and
`_validate_maintenance` in `aircraft_validator.py`). -/
structure AircraftRow where
  registration : String
  aircraft_type : String
  status : String
  owner_airline : String := ""
  seating_capacity : Nat := 0
  last_maintenance_date : Option Nat := none
  next_maintenance_date : Option Nat := none
  maintenance_id : String := ""
  maintenance_type : String := ""
  scheduled_start : Option Nat := none
  scheduled_end : Option Nat := none
  location : String := ""
deriving Repr, DecidableEq, Inhabited

/-- Row of the `minimum_connect_times` table (`mct_validator.py`). -/
structure MctRow where
  airport_code : String
  arrival_airline : Option String := none
  departure_airline : Option String := none
  mct_minutes : Nat
deriving Repr, DecidableEq, Inhabited

/-- Row of the `flight_legs` table (`mct_validator.py`, `routing_validator.py`). -/
structure FlightLegRow where
  flight_id : String
  airport_code : String
  leg_type : String
  terminal : String
deriving Repr, DecidableEq, Inhabited

/-- Row of the `airport_constraints` table (`curfew_validator.py`). -/
structure AirportConstraintRow where
  airport_code : String
  operating_hours_start : Option Nat := none
  operating_hours_end : Option Nat := none
  curfew_start : Option Nat := none
  curfew_end : Option Nat := none
  strict_curfew : Bool := false
  max_night_movements : Option Nat := none
  noise_category_required : Option String := none
  exemption_types : List String := []
  effective_from : Nat := 0
  effective_to : Option Nat := none
deriving Repr, DecidableEq, Inhabited

/-- Row of the `airport_slots` table (`slot_validator.py` and the exemption
lookup of `curfew_validator.py`). -/
structure SlotRow where
  airport_code : String
  slot_type : String
  allocated_to_airline : String := ""
  allocated_to_flight : String := ""
  slot_id : String := ""
  slot_time : Nat := 0
  confirmed : Bool := false
  historical_rights : Bool := false
  tolerance_before_minutes : Option Nat := none
  tolerance_after_minutes : Option Nat := none
  exemption_granted : Bool := false
  exemption_type : String := ""
  exemption_reason : String := ""
deriving Repr, DecidableEq, Inhabited

/-- Row of the `airport_pairs` table (`routing_validator.py`). -/
structure AirportPairRow where
  origin_airport : String
  destination_airport : String
  distance_nm : Nat
deriving Repr, DecidableEq, Inhabited

/-- Row of the `crew_assignments` table (`crew_validator.py`). -/
structure CrewAssignmentRow where
  flight_id : String
  crew_member_id : String
  crew_role : String
deriving Repr, DecidableEq, Inhabited

/-- Row of the `crew_availability` table (`crew_validator.py`). -/
structure CrewAvailabilityRow where
  crew_member_id : String
  name : String := ""
  aircraft_type_ratings : List String := []
  certifications : List String := []
  base_airport : String := ""
  monthly_hours_flown : Nat := 0
  yearly_hours_flown : Nat := 0
deriving Repr, DecidableEq, Inhabited

/-- Row of the `flights` table as queried back by validators
(night movements, crew duty/rest/positioning, code-share, frequency counts). -/
structure DbFlightRow where
  flight_id : String
  flight_number : String := ""
  carrier_code : String := ""
  origin_airport : String := ""
  destination_airport : String := ""
  departure_time : Nat := 0
  arrival_time : Nat := 0
  effective_from : Option Nat := none
  effective_to : Option Nat := none
  marketing_carrier : Option String := none
  operating_carrier : Option String := none
deriving Repr, DecidableEq, Inhabited

/-- Row of the `bilateral_agreements` table (`regulatory_validator.py`). -/
structure BilateralRow where
  agreement_id : String := ""
  carrier_code : String := ""
  country_a : String
  country_b : String
  freedoms_granted : List Nat := []
  effective_from : Nat := 0
  effective_to : Option Nat := none
  max_weekly_frequencies : Option Nat := none
  capacity_limitations : Option String := none
  designated_carriers : Option String := none
deriving Repr, DecidableEq, Inhabited

/-- Read-only reference-data snapshot the validators query. -/
structure DB where
  aircraft_availability : List AircraftRow := []
  minimum_connect_times : List MctRow := []
  flight_legs : List FlightLegRow := []
  airport_constraints : List AirportConstraintRow := []
  airport_slots : List SlotRow := []
  airport_pairs : List AirportPairRow := []
  crew_assignments : List CrewAssignmentRow := []
  crew_availability : List CrewAvailabilityRow := []
  flights : List DbFlightRow := []
  bilateral_agreements : List BilateralRow := []
deriving Repr, DecidableEq, Inhabited

/-! AircraftValidator (`validators/aircraft_validator.py`). -/

namespace AircraftValidator

/-- Minimum turnaround times by aircraft category (minutes). -/
def MIN_TURNAROUND_TIMES : List (String × Nat) :=
  [("narrow_body", 45), ("wide_body", 90), ("regional", 30), ("default", 45)]

/-- Lookup `MIN_TURNAROUND_TIMES.get(category, MIN_TURNAROUND_TIMES["default"])`. -/
def minTurnaroundFor (category : String) : Nat :=
  (MIN_TURNAROUND_TIMES.lookup category).getD
    ((MIN_TURNAROUND_TIMES.lookup "default").getD 45)

/-- Aircraft type categories, in the literal's insertion order. -/
def AIRCRAFT_CATEGORIES : List (String × List String) :=
  [("narrow_body", ["319", "320", "321", "733", "737", "738", "739"]),
   ("wide_body", ["330", "333", "359", "763", "764", "772", "773", "787", "788", "789"]),
   ("regional", ["E90", "E95", "CR7", "CR9", "DH4"])]

/-- Translation of `_get_aircraft_category`. -/
def getAircraftCategory (aircraft_type : String) : String :=
  match AIRCRAFT_CATEGORIES.find? (fun p => p.2.contains aircraft_type) with
  | some p => p.1
  | none => "default"

/-- Maximum daily flight hours per aircraft. -/
def MAX_DAILY_FLIGHT_HOURS : Nat := 16

/-- Translation of `_group_by_aircraft`: flights with a falsy (absent or
empty) registration are skipped. -/
def groupByAircraft (flights : List Flight) : List (String × List Flight) :=
  groupByKey
    (fun f =>
      match f.aircraft_registration with
      | none => none
      | some r => if r = "" then none else some r)
    flights

/-- Translation of `_get_aircraft_info` (first matching row, `fetchone`). -/
def getAircraftInfo (db : DB) (registration : String) : Option AircraftRow :=
  db.aircraft_availability.find? (fun r => r.registration == registration)

/-- Translation of `_validate_aircraft_type`. -/
def validateAircraftType (f : Flight) (info : AircraftRow) : List Issue :=
  if f.aircraft_type ≠ info.aircraft_type then
    [{ severity := "high", category := "aircraft_validation",
       flight_id := f.flight_id, flight_number := f.flight_number,
       issue_type := "aircraft_type_mismatch" }]
  else []

/-- Translation of `_validate_maintenance`: first `aircraft_availability` row
of the registration whose scheduled window contains the departure time. -/
def validateMaintenance (db : DB) (f : Flight) (aircraft_reg : String) : List Issue :=
  match db.aircraft_availability.find?
      (fun r =>
        r.registration == aircraft_reg &&
        (match r.scheduled_start, r.scheduled_end with
         | some s, some e => decide (s ≤ f.departure_time ∧ f.departure_time ≤ e)
         | _, _ => false)) with
  | some _ =>
    [{ severity := "critical", category := "aircraft_validation",
       flight_id := f.flight_id, flight_number := f.flight_number,
       issue_type := "maintenance_conflict" }]
  | none => []

/-- Translation of `_validate_turnaround` (see `turnaroundSecondsD` for the
broken overnight adjustment; the source compares fractional minutes, mirrored
here as seconds against `min_turnaround * 60`). -/
def validateTurnaround (nowD : Nat) (prev_flight current_flight : Flight)
    (info : AircraftRow) : List Issue :=
  let turnaround_seconds :=
    turnaroundSecondsD nowD prev_flight.arrival_time current_flight.departure_time
  let category := getAircraftCategory info.aircraft_type
  let min_turnaround := minTurnaroundFor category
  if turnaround_seconds < (min_turnaround : Int) * 60 then
    [{ severity := "high", category := "aircraft_validation",
       flight_id := current_flight.flight_id,
       flight_number := current_flight.flight_number,
       issue_type := "insufficient_turnaround" }]
  else []

/-- Translation of `_validate_routing_continuity`. -/
def validateRoutingContinuity (prev_flight current_flight : Flight) : List Issue :=
  if prev_flight.destination_airport ≠ current_flight.origin_airport then
    [{ severity := "critical", category := "aircraft_validation",
       flight_id := current_flight.flight_id,
       flight_number := current_flight.flight_number,
       issue_type := "routing_discontinuity" }]
  else []

/-- Translation of `_validate_daily_utilization` (the 16-hour float comparison
on summed hours is mirrored as seconds against `16 * 3600`). -/
def validateDailyUtilization (nowD : Nat) (flights : List Flight)
    (_aircraft_reg : String) : List Issue :=
  let flights_by_date := groupByKey (fun f => some f.effective_from) flights
  flights_by_date.flatMap (fun p =>
    let total_seconds :=
      (p.2.map (fun f => flightDurationSecondsD nowD f.departure_time f.arrival_time)).sum
    if total_seconds > MAX_DAILY_FLIGHT_HOURS * 3600 then
      [{ severity := "medium", category := "aircraft_validation",
         flight_id := (match p.2 with | [] => "" | g :: _ => g.flight_id),
         flight_number := "Multiple",
         issue_type := "excessive_utilization" }]
    else [])

/-- Per-flight loop of `validate`: type and maintenance checks for every
flight, turnaround and routing-continuity checks against the previous flight
of the sorted list. -/
def validateSorted (nowD : Nat) (db : DB) (info : AircraftRow) (aircraft_reg : String) :
    List Flight → Option Flight → List Issue
  | [], _ => []
  | f :: rest, prev =>
    validateAircraftType f info
      ++ validateMaintenance db f aircraft_reg
      ++ (match prev with
          | none => []
          | some p => validateTurnaround nowD p f info ++ validateRoutingContinuity p f)
      ++ validateSorted nowD db info aircraft_reg rest (some f)

/-- Translation of `AircraftValidator.validate`. -/
def validate (nowD : Nat) (flights : List Flight) (db : DB) : List Issue :=
  (groupByAircraft flights).flatMap (fun p =>
    let aircraft_reg := p.1
    let aircraft_flights := p.2
    match getAircraftInfo db aircraft_reg with
    | none =>
      aircraft_flights.map (fun f =>
        { severity := "critical", category := "aircraft_validation",
          flight_id := f.flight_id, flight_number := f.flight_number,
          issue_type := "aircraft_not_found" })
    | some info =>
      if info.status ≠ "active" then
        aircraft_flights.map (fun f =>
          { severity := "critical", category := "aircraft_validation",
            flight_id := f.flight_id, flight_number := f.flight_number,
            issue_type := "aircraft_inactive" })
      else
        let sorted_flights := sortByKey (fun f => f.departure_time) aircraft_flights
        validateSorted nowD db info aircraft_reg sorted_flights none
          ++ validateDailyUtilization nowD sorted_flights aircraft_reg)

end AircraftValidator

/-! MCTValidator (`validators/mct_validator.py`). -/

namespace MCTValidator

/-- Default MCT values (minutes). -/
def DEFAULT_MCT : List (String × Nat) :=
  [("domestic_domestic", 45), ("domestic_international", 75),
   ("international_domestic", 90), ("international_international", 60),
   ("same_terminal", 0), ("terminal_change", 20),
   ("interline", 15), ("baggage_recheck", 30)]

/-- Lookup into `DEFAULT_MCT` (every key used by the source is present). -/
def defaultMct (k : String) : Nat :=
  (DEFAULT_MCT.lookup k).getD 0

/-- Hub airports with complex terminal layouts. -/
def HUB_AIRPORTS : List String :=
  ["JFK", "LHR", "CDG", "FRA", "AMS", "ORD", "LAX", "DFW",
   "ATL", "DEN", "IAH", "SFO", "MIA", "EWR", "LGA"]

/-- Schengen countries. -/
def SCHENGEN_COUNTRIES : List String :=
  ["AT", "BE", "CZ", "DK", "EE", "FI", "FR", "DE", "GR", "HU",
   "IS", "IT", "LV", "LI", "LT", "LU", "MT", "NL", "NO", "PL",
   "PT", "SK", "SI", "ES", "SE", "CH"]

/-- Airport-to-country table of `_get_country_from_airport`. -/
def AIRPORT_COUNTRIES : List (String × String) :=
  [("JFK", "US"), ("LAX", "US"), ("ORD", "US"), ("ATL", "US"), ("DFW", "US"),
   ("LHR", "GB"), ("CDG", "FR"), ("FRA", "DE"), ("AMS", "NL"), ("MAD", "ES"),
   ("NRT", "JP"), ("HND", "JP"), ("ICN", "KR"), ("PVG", "CN"), ("HKG", "HK"),
   ("DXB", "AE"), ("SIN", "SG"), ("BKK", "TH"), ("SYD", "AU"), ("MEL", "AU"),
   ("YYZ", "CA"), ("YVR", "CA"), ("GRU", "BR"), ("EZE", "AR"), ("SCL", "CL"),
   ("PTY", "PA"), ("BOG", "CO"), ("LIM", "PE"), ("GIG", "BR"), ("MIA", "US"),
   ("IAH", "US"), ("EWR", "US"), ("SFO", "US"), ("DEN", "US"), ("LGA", "US")]

/-- Translation of `_get_country_from_airport`. -/
def getCountryFromAirport (airport_code : String) : String :=
  (AIRPORT_COUNTRIES.lookup airport_code).getD "XX"

/-- Translation of `_is_international_flight`. -/
def isInternationalFlight (f : Flight) : Bool :=
  !(getCountryFromAirport f.origin_airport == getCountryFromAirport f.destination_airport)

/-- Translation of `_is_schengen_connection`. -/
def isSchengenConnection (inbound outbound : Flight) : Bool :=
  SCHENGEN_COUNTRIES.contains (getCountryFromAirport inbound.destination_airport) &&
  SCHENGEN_COUNTRIES.contains (getCountryFromAirport outbound.destination_airport)

/-- Translation of `_get_mct_from_database`: the wildcard priority of the SQL
`ORDER BY CASE ... LIMIT 1` (exact pair, then arrival-only, then
departure-only, then full wildcard; first row in table order within a
priority). -/
def getMctFromDatabase (db : DB) (airport : String) (inbound outbound : Flight) :
    Option Nat :=
  let rows := db.minimum_connect_times.filter (fun r => r.airport_code == airport)
  match rows.find? (fun r =>
      r.arrival_airline == some inbound.carrier_code &&
      r.departure_airline == some outbound.carrier_code) with
  | some r => some r.mct_minutes
  | none =>
    match rows.find? (fun r =>
        r.arrival_airline == some inbound.carrier_code &&
        r.departure_airline == none) with
    | some r => some r.mct_minutes
    | none =>
      match rows.find? (fun r =>
          r.arrival_airline == none &&
          r.departure_airline == some outbound.carrier_code) with
      | some r => some r.mct_minutes
      | none =>
        match rows.find? (fun r =>
            r.arrival_airline == none && r.departure_airline == none) with
        | some r => some r.mct_minutes
        | none => none

/-- Translation of `_requires_terminal_change`. -/
def requiresTerminalChange (db : DB) (airport : String) (inbound outbound : Flight) :
    Bool :=
  let inbound_terminal := db.flight_legs.find? (fun l =>
    l.flight_id == inbound.flight_id && l.airport_code == airport &&
    l.leg_type == "arrival")
  let outbound_terminal := db.flight_legs.find? (fun l =>
    l.flight_id == outbound.flight_id && l.airport_code == airport &&
    l.leg_type == "departure")
  match inbound_terminal, outbound_terminal with
  | some i, some o => !(i.terminal == o.terminal)
  | _, _ =>
    if HUB_AIRPORTS.contains airport then
      !(inbound.carrier_code == outbound.carrier_code)
    else false

/-- Translation of `_requires_baggage_recheck`. -/
def requiresBaggageRecheck (inbound outbound : Flight) : Bool :=
  if !(inbound.carrier_code == outbound.carrier_code) then true
  else
    let inbound_intl := isInternationalFlight inbound
    let outbound_intl := isInternationalFlight outbound
    if !inbound_intl && outbound_intl then
      getCountryFromAirport inbound.origin_airport == "US"
    else false

/-- Translation of `_get_required_mct` (`if db_mct:` is falsy for both a
missing row and a zero value, see `truthyNat`). -/
def getRequiredMct (db : DB) (airport : String) (inbound outbound : Flight) : Nat :=
  let db_mct := getMctFromDatabase db airport inbound outbound
  if truthyNat db_mct then db_mct.getD 0
  else
    let inbound_intl := isInternationalFlight inbound
    let outbound_intl := isInternationalFlight outbound
    let mct0 :=
      if !inbound_intl && !outbound_intl then defaultMct "domestic_domestic"
      else if !inbound_intl && outbound_intl then defaultMct "domestic_international"
      else if inbound_intl && !outbound_intl then defaultMct "international_domestic"
      else if isSchengenConnection inbound outbound then defaultMct "domestic_domestic"
      else defaultMct "international_international"
    let mct1 :=
      if requiresTerminalChange db airport inbound outbound then
        mct0 + defaultMct "terminal_change"
      else mct0
    let mct2 :=
      if !(inbound.carrier_code == outbound.carrier_code) then
        mct1 + defaultMct "interline"
      else mct1
    let mct3 :=
      if requiresBaggageRecheck inbound outbound then
        mct2 + defaultMct "baggage_recheck"
      else mct2
    if HUB_AIRPORTS.contains airport then mct3 + 10 else mct3

/-- Translation of `_is_potential_connection` (`30 <= minutes <= 360`,
mirrored in seconds). -/
def isPotentialConnection (nowD : Nat) (inbound outbound : Flight) : Bool :=
  let s := timeDiffSecondsD nowD inbound.arrival_time outbound.departure_time
  decide (1800 ≤ s ∧ s ≤ 21600)

/-- Translation of `_validate_connection_time` (fractional-minute comparisons
mirrored in seconds). -/
def validateConnectionTime (nowD : Nat) (db : DB) (inbound outbound : Flight) :
    List Issue :=
  let connection_airport := inbound.destination_airport
  let actual_seconds := timeDiffSecondsD nowD inbound.arrival_time outbound.departure_time
  let required_mct := getRequiredMct db connection_airport inbound outbound
  if actual_seconds < required_mct * 60 then
    [{ severity := "high", category := "mct_validation",
       flight_id := outbound.flight_id, flight_number := outbound.flight_number,
       issue_type := "insufficient_connection_time" }]
  else if actual_seconds < (required_mct + 5) * 60 then
    [{ severity := "medium", category := "mct_validation",
       flight_id := outbound.flight_id, flight_number := outbound.flight_number,
       issue_type := "tight_connection" }]
  else []

/-- Translation of `_find_connections`.  Note (faithful to the source): the
buckets are keyed by the *destination* airport of their member flights, and
the lookup key for an inbound flight is again the inbound's destination — so a
bucket holds flights arriving at the inbound's destination, although the
function's own comment says it looks for outbound flights departing from that
destination. -/
def findConnections (nowD : Nat) (flights : List Flight) :
    List (Flight × Flight) :=
  let flights_by_airport :=
    groupByKey (fun f => some (f.destination_airport, f.effective_from)) flights
  flights.flatMap (fun f =>
    match flights_by_airport.lookup (f.destination_airport, f.effective_from) with
    | none => []
    | some bucket =>
      (bucket.filter (fun outbound => isPotentialConnection nowD f outbound)).map
        (fun outbound => (f, outbound)))

/-- Translation of `MCTValidator.validate`. -/
def validate (nowD : Nat) (flights : List Flight) (db : DB) : List Issue :=
  (findConnections nowD flights).flatMap (fun c =>
    validateConnectionTime nowD db c.1 c.2)

end MCTValidator

/-! Claim C3: operating-days pattern checking. -/

/-- Modelled from the spec: positional correctness of an operating-days
pattern (spec, data model) — exactly 7 characters with the character at
position i (1-indexed) equal to the digit i or the placeholder X.  The
pattern validator itself never checks positions; this definition only serves
to state claim C3 against the code. -/
def positionalOperatingDaysOk (od : String) : Bool :=
  od.length == 7 &&
  ((od.toList.zip ['1', '2', '3', '4', '5', '6', '7']).all
    (fun p => p.1 == p.2 || p.1 == 'X'))

/-- Sample flight whose operating-days string is a valid-character permutation
that is positionally wrong (every position holds the digit 2). -/
def c3Flight : Flight :=
  { flight_id := "C3A", flight_number := "CM301", carrier_code := "CM",
    origin_airport := "PTY", destination_airport := "MIA",
    departure_time := 28800, arrival_time := 41400,
    operating_days := "2222222", aircraft_type := "738" }

/-- Sample flight whose operating-days string is short and has no active day. -/
def c3FlightShort : Flight :=
  { flight_id := "C3B", flight_number := "CM302", carrier_code := "CM",
    origin_airport := "PTY", destination_airport := "MIA",
    departure_time := 28800, arrival_time := 41400,
    operating_days := "XX", aircraft_type := "738" }

/-- C3 counterexample: the pattern `"2222222"` fails the spec's positional
correctness, yet the validator emits no issue at all for it; and a pattern
with no active day that is not exactly 7 characters long (`"XX"`) gets no
`no_operating_days` issue (only the length issue). -/
theorem C3_counterexample :
    positionalOperatingDaysOk "2222222" = false ∧
    PatternValidator.validateOperatingDays c3Flight = [] ∧
    (PatternValidator.validateOperatingDays c3FlightShort).all
      (fun i => !(i.issue_type == "no_operating_days")) = true := by
  refine ⟨by decide, by decide, by decide⟩

/-- A pattern equal to `"XXXXXXX"` contains no active-day digit. -/
theorem no_day_digits_of_all_X (od : String) (h : od = "XXXXXXX") :
    od.toList.any (fun c => PatternValidator.DAY_DIGITS.contains c) = false := by
  subst h; decide


/-- The `no_operating_days` condition of the source is equivalent to the
absence of any active-day digit. -/
theorem noop_cond_iff (od : String) :
    ((od == "XXXXXXX")
        || !(od.toList.any fun c => PatternValidator.DAY_DIGITS.contains c)) = true
      ↔ (od.toList.any fun c => PatternValidator.DAY_DIGITS.contains c) = false := by
  constructor
  · intro h
    rcases Bool.or_eq_true_iff.mp h with h1 | h2
    · exact no_day_digits_of_all_X od (by simpa using h1)
    · simpa using h2
  · intro h
    apply Bool.or_eq_true_iff.mpr
    right
    rw [h]
    rfl

/-- C3 as amended: the validator emits a critical pattern issue exactly when
the operating-days string has the wrong length or a character outside
{1..7, X} (positional placement is never checked), and it emits the high
`no_operating_days` issue exactly when the string is 7 characters long and
contains no active-day digit. -/
theorem C3_theorem (f : Flight) :
    ((∃ i ∈ PatternValidator.validateOperatingDays f, i.severity = "critical") ↔
      (f.operating_days.length ≠ 7 ∨
        f.operating_days.toList.any
          (fun c => !(PatternValidator.VALID_OPERATING_CHARS.contains c)) = true)) ∧
    (({ severity := "high", category := "pattern_validation",
        flight_id := f.flight_id, flight_number := f.flight_number,
        issue_type := "no_operating_days" } : Issue)
          ∈ PatternValidator.validateOperatingDays f ↔
      (f.operating_days.length = 7 ∧
        f.operating_days.toList.any
          (fun c => PatternValidator.DAY_DIGITS.contains c) = false)) := by
  by_cases h7 : f.operating_days.length = 7
  · have hout : PatternValidator.validateOperatingDays f =
        (if (f.operating_days.toList.any
              fun c => !(PatternValidator.VALID_OPERATING_CHARS.contains c)) then
          [{ severity := "critical", category := "pattern_validation",
             flight_id := f.flight_id, flight_number := f.flight_number,
             issue_type := "invalid_operating_days_chars" }]
        else []) ++
        (if (f.operating_days == "XXXXXXX")
            || !(f.operating_days.toList.any
                  fun c => PatternValidator.DAY_DIGITS.contains c) then
          [{ severity := "high", category := "pattern_validation",
             flight_id := f.flight_id, flight_number := f.flight_number,
             issue_type := "no_operating_days" }]
        else []) := by
      unfold PatternValidator.validateOperatingDays
      rw [if_neg (fun h => h h7)]
    rw [hout]
    by_cases hA : (f.operating_days.toList.any
        fun c => !(PatternValidator.VALID_OPERATING_CHARS.contains c)) = true
    · rw [if_pos hA]
      by_cases hB : ((f.operating_days == "XXXXXXX")
          || !(f.operating_days.toList.any
                fun c => PatternValidator.DAY_DIGITS.contains c)) = true
      · rw [if_pos hB, List.singleton_append]
        constructor
        · constructor
          · intro _
            exact Or.inr hA
          · intro _
            exact ⟨_, List.mem_cons_self _ _, rfl⟩
        · constructor
          · intro _
            exact ⟨h7, (noop_cond_iff f.operating_days).mp hB⟩
          · intro _
            exact List.mem_cons_of_mem _ (List.mem_singleton.mpr rfl)
      · rw [if_neg hB, List.append_nil]
        constructor
        · constructor
          · intro _
            exact Or.inr hA
          · intro _
            exact ⟨_, List.mem_singleton.mpr rfl, rfl⟩
        · constructor
          · intro hmem
            have heq := List.mem_singleton.mp hmem
            have hsev : ("high" : String) = "critical" := congrArg Issue.severity heq
            exact absurd hsev (by decide)
          · intro hrhs
            exact absurd ((noop_cond_iff f.operating_days).mpr hrhs.2) hB
    · rw [if_neg hA, List.nil_append]
      by_cases hB : ((f.operating_days == "XXXXXXX")
          || !(f.operating_days.toList.any
                fun c => PatternValidator.DAY_DIGITS.contains c)) = true
      · rw [if_pos hB]
        constructor
        · constructor
          · intro ⟨i, hmem, hsev⟩
            have heq := List.mem_singleton.mp hmem
            rw [heq] at hsev
            exact absurd (show ("high" : String) = "critical" from hsev) (by decide)
          · intro hrhs
            rcases hrhs with h | h
            · exact absurd h7 h
            · exact absurd h hA
        · constructor
          · intro _
            exact ⟨h7, (noop_cond_iff f.operating_days).mp hB⟩
          · intro _
            exact List.mem_singleton.mpr rfl
      · rw [if_neg hB]
        constructor
        · constructor
          · intro ⟨i, hmem, _⟩
            cases hmem
          · intro hrhs
            rcases hrhs with h | h
            · exact absurd h7 h
            · exact absurd h hA
        · constructor
          · intro hmem
            cases hmem
          · intro hrhs
            exact absurd ((noop_cond_iff f.operating_days).mpr hrhs.2) hB
  · have hout : PatternValidator.validateOperatingDays f =
        [{ severity := "critical", category := "pattern_validation",
           flight_id := f.flight_id, flight_number := f.flight_number,
           issue_type := "invalid_operating_days_length" }] := by
      unfold PatternValidator.validateOperatingDays
      rw [if_pos h7]
    rw [hout]
    constructor
    · constructor
      · intro _
        exact Or.inl h7
      · intro _
        exact ⟨_, List.mem_singleton.mpr rfl, rfl⟩
    · constructor
      · intro hmem
        have heq := List.mem_singleton.mp hmem
        have hsev : ("high" : String) = "critical" := congrArg Issue.severity heq
        exact absurd hsev (by decide)
      · intro hrhs
        exact absurd hrhs.1 h7

/-! Claim C4: Scenario B required MCT. -/

/-- Empty reference snapshot for the Scenario B computation (no explicit MCT
row, no terminal records). -/
def c4db : DB := {}

/-- Scenario B inbound: domestic leg arriving at the hub MIA at 10:00. -/
def c4inbound : Flight :=
  { flight_id := "C4A", flight_number := "AA100", carrier_code := "AA",
    origin_airport := "JFK", destination_airport := "MIA",
    departure_time := 28800, arrival_time := 36000,
    operating_days := "1234567", aircraft_type := "738" }

/-- Scenario B outbound: domestic leg of a different carrier departing the
hub MIA at 10:40. -/
def c4outbound : Flight :=
  { flight_id := "C4B", flight_number := "DL200", carrier_code := "DL",
    origin_airport := "MIA", destination_airport := "LAX",
    departure_time := 38400, arrival_time := 52200,
    operating_days := "1234567", aircraft_type := "738" }

/-- C4 counterexample: for the Scenario B connection the code does not compute
a required MCT of 70 minutes. -/
theorem C4_counterexample :
    MCTValidator.getRequiredMct c4db "MIA" c4inbound c4outbound ≠ 70 := by
  decide

/-- C4 as amended: the required MCT for Scenario B is 120 minutes
(45 domestic-domestic base + 20 terminal change assumed for an interline
connection at a hub + 15 interline + 30 interline baggage re-check + 10 hub),
and since the 40-minute gap is below 120 the connection-time check emits the
high `insufficient_connection_time` issue. -/
theorem C4_theorem :
    MCTValidator.getRequiredMct c4db "MIA" c4inbound c4outbound = 120 ∧
    timeDiffSecondsD 0 c4inbound.arrival_time c4outbound.departure_time = 40 * 60 ∧
    MCTValidator.validateConnectionTime 0 c4db c4inbound c4outbound =
      [{ severity := "high", category := "mct_validation",
         flight_id := "C4B", flight_number := "DL200",
         issue_type := "insufficient_connection_time" }] := by
  refine ⟨by decide, by decide, by decide⟩

/-! Claim C5: candidate connections never reach the MCT check. -/

/-- Empty reference snapshot for the C5 run. -/
def c5db : DB := {}

/-- Inbound flight of a genuine connection (arrives MIA 10:00). -/
def c5inbound : Flight :=
  { flight_id := "C5A", flight_number := "AA110", carrier_code := "AA",
    origin_airport := "JFK", destination_airport := "MIA",
    departure_time := 28800, arrival_time := 36000,
    operating_days := "1234567", aircraft_type := "738",
    effective_from := some 100 }

/-- Outbound flight of that connection (departs MIA 10:40, 40-minute gap). -/
def c5outbound : Flight :=
  { flight_id := "C5B", flight_number := "DL210", carrier_code := "DL",
    origin_airport := "MIA", destination_airport := "LAX",
    departure_time := 38400, arrival_time := 57600,
    operating_days := "1234567", aircraft_type := "738",
    effective_from := some 100 }

/-- C5 evaluation at the failing input: the pair is a candidate connection in
the claim's sense (inbound destination equals outbound origin, overnight-aware
gap inside [30, 360] minutes, gap below the required MCT), yet
`_find_connections` pairs flights by equal *destination* and therefore never
finds it, so the validator emits no issue at all. -/
theorem C5_theorem :
    c5inbound.destination_airport = c5outbound.origin_airport ∧
    MCTValidator.isPotentialConnection 0 c5inbound c5outbound = true ∧
    timeDiffSecondsD 0 c5inbound.arrival_time c5outbound.departure_time
      < 60 * MCTValidator.getRequiredMct c5db c5inbound.destination_airport
          c5inbound c5outbound ∧
    MCTValidator.findConnections 0 [c5inbound, c5outbound] = [] ∧
    MCTValidator.validate 0 [c5inbound, c5outbound] c5db = [] := by
  refine ⟨by decide, by decide, by decide, by decide, by decide⟩

/-! Claim C6: turnaround boundary. -/

/-- Snapshot with one active wide-body aircraft. -/
def c6db : DB :=
  { aircraft_availability :=
      [{ registration := "HP-100", aircraft_type := "773", status := "active" }] }

/-- Earlier flight of the tail: departs 00:10, arrives 23:00. -/
def c6prev : Flight :=
  { flight_id := "C6A", flight_number := "CM201", carrier_code := "CM",
    origin_airport := "PTY", destination_airport := "MIA",
    departure_time := 600, arrival_time := 82800,
    operating_days := "1234567", aircraft_type := "773",
    aircraft_registration := some "HP-100" }

/-- Later flight of the tail: departs 00:30 (the next day), exactly the
90-minute wide-body minimum after the previous arrival. -/
def c6cur : Flight :=
  { flight_id := "C6B", flight_number := "CM202", carrier_code := "CM",
    origin_airport := "MIA", destination_airport := "JFK",
    departure_time := 1800, arrival_time := 10800,
    operating_days := "1234567", aircraft_type := "773",
    aircraft_registration := some "HP-100" }

/-- C6 evaluation at the failing input: the overnight-aware turnaround gap is
exactly the wide-body category minimum (90 minutes), so the claim expects no
issue, but the validator still emits the high `insufficient_turnaround` issue
because its overnight adjustment is a no-op (`combineTime`) and the computed
turnaround is negative. -/
theorem C6_theorem :
    timeDiffSecondsD 0 c6prev.arrival_time c6cur.departure_time
      = 60 * AircraftValidator.minTurnaroundFor
          (AircraftValidator.getAircraftCategory c6cur.aircraft_type) ∧
    turnaroundSecondsD 0 c6prev.arrival_time c6cur.departure_time < 0 ∧
    ({ severity := "high", category := "aircraft_validation",
       flight_id := "C6B", flight_number := "CM202",
       issue_type := "insufficient_turnaround" } : Issue)
      ∈ AircraftValidator.validate 0 [c6prev, c6cur] c6db := by
  refine ⟨by decide, by decide, by decide⟩

/-! CurfewValidator (`validators/curfew_validator.py`). -/

namespace CurfewValidator

/-- Hardcoded curfew airports: (curfew start, curfew end, strict). -/
def CURFEW_AIRPORTS : List (String × (Nat × Nat × Bool)) :=
  [("LHR", (82800, 21600, true)), ("SYD", (82800, 21600, true)),
   ("FRA", (82800, 18000, true)), ("ZRH", (84600, 21600, true)),
   ("DCA", (79200, 25200, true)), ("SNA", (79200, 25200, true)),
   ("BUR", (79200, 25200, true)), ("LGA", (79200, 21600, false)),
   ("SAN", (84600, 23400, false))]

/-- Aircraft noise categories, in the literal's insertion order. -/
def AIRCRAFT_NOISE_CATEGORIES : List (String × List String) :=
  [("Chapter 3", ["763", "764", "773"]),
   ("Chapter 4", ["737", "738", "739", "320", "321", "787", "788", "789"]),
   ("Chapter 14", ["320neo", "321neo", "A35K"])]

/-- Noise-category ordering used by `_check_noise_restrictions`. -/
def CATEGORY_HIERARCHY : List String := ["Chapter 3", "Chapter 4", "Chapter 14"]

/-- Translation of `_is_quiet_aircraft`. -/
def isQuietAircraft (aircraft_type : String) : Bool :=
  ((AIRCRAFT_NOISE_CATEGORIES.lookup "Chapter 14").getD []).contains aircraft_type

/-- Translation of `_get_noise_category`. -/
def getNoiseCategory (aircraft_type : String) : String :=
  match AIRCRAFT_NOISE_CATEGORIES.find? (fun p => p.2.contains aircraft_type) with
  | some p => p.1
  | none => "Chapter 3"

/-- Translation of `_get_airport_constraints`: rows of the airport effective
on the query date (`effective_from <= CURRENT_DATE` and not yet expired),
`ORDER BY effective_from DESC LIMIT 1` (first row of maximal
`effective_from`).  The dependence on `today` mirrors the SQL `CURRENT_DATE`. -/
def getAirportConstraints (db : DB) (today : Nat) (airport_code : String) :
    Option AirportConstraintRow :=
  let rows := db.airport_constraints.filter (fun r =>
    r.airport_code == airport_code &&
    decide (r.effective_from ≤ today) &&
    (match r.effective_to with
     | none => true
     | some e => decide (today ≤ e)))
  rows.foldl
    (fun best r =>
      match best with
      | none => some r
      | some b => if r.effective_from > b.effective_from then some r else some b)
    none

/-- Translation of `_is_within_operating_hours`. -/
def isWithinOperatingHours (scheduled start_time end_time : Nat) : Bool :=
  if end_time < start_time then
    decide (scheduled ≥ start_time) || decide (scheduled ≤ end_time)
  else
    decide (start_time ≤ scheduled) && decide (scheduled ≤ end_time)

/-- Translation of `_is_during_curfew` (inclusive boundaries in both the
midnight-spanning and the same-day case). -/
def isDuringCurfew (scheduled curfew_start curfew_end : Nat) : Bool :=
  if curfew_end < curfew_start then
    decide (scheduled ≥ curfew_start) || decide (scheduled ≤ curfew_end)
  else
    decide (curfew_start ≤ scheduled) && decide (scheduled ≤ curfew_end)

/-- Translation of `_check_curfew_exemption`. -/
def checkCurfewExemption (db : DB) (f : Flight) (airport operation : String)
    (constraints : AirportConstraintRow) : Option String :=
  match db.airport_slots.find? (fun s =>
      s.airport_code == airport &&
      s.allocated_to_flight == f.flight_id &&
      s.slot_type == operation &&
      s.exemption_granted) with
  | some e => some (e.exemption_type ++ ": " ++ e.exemption_reason)
  | none =>
    if f.service_type == "F" && constraints.exemption_types.contains "cargo" then
      some "Cargo exemption"
    else if isQuietAircraft f.aircraft_type
        && constraints.exemption_types.contains "quiet_aircraft" then
      some "Quiet aircraft exemption"
    else none

/-- Translation of `_check_night_movement_quota`.  The source reads the curfew
window with `constraints.get("curfew_start", "23:00")`; the key is always
present in the constraints dict, so the fallback literals of the source only
stand in for a `None` value here. -/
def checkNightMovementQuota (db : DB) (f : Flight) (airport _operation : String)
    (scheduled_time : Nat) (constraints : AirportConstraintRow) : List Issue :=
  if !(truthyNat constraints.max_night_movements) then []
  else
    let curfew_start := constraints.curfew_start.getD 82800
    let curfew_end := constraints.curfew_end.getD 21600
    if !(isDuringCurfew scheduled_time curfew_start curfew_end) then []
    else
      let current_movements := (db.flights.filter (fun r =>
        (r.origin_airport == airport || r.destination_airport == airport) &&
        r.effective_from == f.effective_from &&
        ((decide (curfew_start ≤ r.departure_time) && decide (r.departure_time ≤ 86399))
          || decide (r.departure_time ≤ curfew_end)
          || (decide (curfew_start ≤ r.arrival_time) && decide (r.arrival_time ≤ 86399))
          || decide (r.arrival_time ≤ curfew_end)))).length
      if current_movements ≥ constraints.max_night_movements.getD 0 then
        [{ severity := "high", category := "curfew_validation",
           flight_id := f.flight_id, flight_number := f.flight_number,
           issue_type := "night_movement_quota_exceeded" }]
      else []

/-- Translation of `_check_noise_restrictions`. -/
def checkNoiseRestrictions (f : Flight) (_airport _operation : String)
    (scheduled_time : Nat) (constraints : AirportConstraintRow) : List Issue :=
  if !(truthyStr constraints.noise_category_required) then []
  else
    let curfew_start := constraints.curfew_start.getD 82800
    let curfew_end := constraints.curfew_end.getD 21600
    if !(isDuringCurfew scheduled_time curfew_start curfew_end) then []
    else
      let aircraft_category := getNoiseCategory f.aircraft_type
      let required_category := constraints.noise_category_required.getD ""
      if CATEGORY_HIERARCHY.findIdx (fun c => c == aircraft_category)
          < CATEGORY_HIERARCHY.findIdx (fun c => c == required_category) then
        [{ severity := "high", category := "curfew_validation",
           flight_id := f.flight_id, flight_number := f.flight_number,
           issue_type := "noise_category_violation" }]
      else []

/-- Translation of `_validate_airport_hours` (with the fallback to the
hardcoded `CURFEW_AIRPORTS` constraints when the database has none). -/
def validateAirportHours (db : DB) (today : Nat) (f : Flight)
    (airport operation : String) (scheduled_time : Nat) : List Issue :=
  let constraintsOpt :=
    match getAirportConstraints db today airport with
    | some c => some c
    | none =>
      match CURFEW_AIRPORTS.lookup airport with
      | some w =>
        some { airport_code := airport,
               curfew_start := some w.1, curfew_end := some w.2.1,
               strict_curfew := w.2.2,
               operating_hours_start := some 0,
               operating_hours_end := some 86340,
               max_night_movements := none }
      | none => none
  match constraintsOpt with
  | none => []
  | some constraints =>
    (match constraints.operating_hours_start, constraints.operating_hours_end with
     | some ohs, some ohe =>
       if !(isWithinOperatingHours scheduled_time ohs ohe) then
         [{ severity := "critical", category := "curfew_validation",
            flight_id := f.flight_id, flight_number := f.flight_number,
            issue_type := "outside_operating_hours" }]
       else []
     | _, _ => []) ++
    (match constraints.curfew_start, constraints.curfew_end with
     | some cs, some ce =>
       if isDuringCurfew scheduled_time cs ce then
         match checkCurfewExemption db f airport operation constraints with
         | none =>
           [{ severity := if constraints.strict_curfew then "critical" else "high",
              category := "curfew_validation",
              flight_id := f.flight_id, flight_number := f.flight_number,
              issue_type := "curfew_violation" }]
         | some _ =>
           [{ severity := "low", category := "curfew_validation",
              flight_id := f.flight_id, flight_number := f.flight_number,
              issue_type := "curfew_exemption_used" }]
       else []
     | _, _ => []) ++
    (if truthyNat constraints.max_night_movements then
      checkNightMovementQuota db f airport operation scheduled_time constraints
    else []) ++
    checkNoiseRestrictions f airport operation scheduled_time constraints

/-- Translation of `CurfewValidator.validate`. -/
def validate (db : DB) (today : Nat) (flights : List Flight) : List Issue :=
  flights.flatMap (fun f =>
    validateAirportHours db today f f.origin_airport "departure" f.departure_time
      ++ validateAirportHours db today f f.destination_airport "arrival" f.arrival_time)

end CurfewValidator

/-! Claim C7: curfew boundary inclusivity. -/

/-- C7: a scheduled time exactly equal to the curfew start or end boundary
counts as during the curfew (whether or not the window spans midnight), and
absent an exemption the flight receives a `curfew_violation` issue whose
severity is critical for a strict curfew and high otherwise. -/
theorem C7_theorem (db : DB) (today : Nat) (f : Flight)
    (airport operation : String) (scheduled_time : Nat)
    (c : AirportConstraintRow) (cs ce : Nat)
    (hc : CurfewValidator.getAirportConstraints db today airport = some c)
    (hcs : c.curfew_start = some cs) (hce : c.curfew_end = some ce)
    (hb : scheduled_time = cs ∨ scheduled_time = ce)
    (hex : CurfewValidator.checkCurfewExemption db f airport operation c = none) :
    CurfewValidator.isDuringCurfew scheduled_time cs ce = true ∧
    ({ severity := if c.strict_curfew then "critical" else "high",
       category := "curfew_validation", flight_id := f.flight_id,
       flight_number := f.flight_number, issue_type := "curfew_violation" } : Issue)
      ∈ CurfewValidator.validateAirportHours db today f airport operation scheduled_time := by
  have hdc : CurfewValidator.isDuringCurfew scheduled_time cs ce = true := by
    unfold CurfewValidator.isDuringCurfew
    rcases hb with h | h <;> subst h <;> split_ifs with hlt <;> simp <;> omega
  refine ⟨hdc, ?_⟩
  unfold CurfewValidator.validateAirportHours
  rw [hc]
  simp only [hcs, hce, hdc, hex, if_true]
  apply List.mem_append.mpr
  apply Or.inl
  apply List.mem_append.mpr
  apply Or.inl
  apply List.mem_append.mpr
  apply Or.inr
  exact List.mem_singleton.mpr rfl

/-- Snapshot for the C7 witness: one strict curfew row for airport AAA and no
exemptions. -/
def c7db : DB :=
  { airport_constraints :=
      [{ airport_code := "AAA", curfew_start := some 82800,
         curfew_end := some 21600, strict_curfew := true, effective_from := 0 }] }

/-- Flight departing AAA exactly at the curfew start boundary 23:00. -/
def c7flight : Flight :=
  { flight_id := "C7A", flight_number := "CM701", carrier_code := "CM",
    origin_airport := "AAA", destination_airport := "BBB",
    departure_time := 82800, arrival_time := 10000,
    operating_days := "1234567", aircraft_type := "738" }

/-- C7 witness: the boundary departure at 23:00 under the strict 23:00-06:00
curfew of AAA yields the critical `curfew_violation` issue. -/
theorem C7_witness :
    CurfewValidator.isDuringCurfew 82800 82800 21600 = true ∧
    ({ severity :=
         if ({ airport_code := "AAA", curfew_start := some 82800,
               curfew_end := some 21600, strict_curfew := true,
               effective_from := 0 } : AirportConstraintRow).strict_curfew
         then "critical" else "high",
       category := "curfew_validation", flight_id := c7flight.flight_id,
       flight_number := c7flight.flight_number,
       issue_type := "curfew_violation" } : Issue)
      ∈ CurfewValidator.validateAirportHours c7db 5 c7flight "AAA" "departure" 82800 :=
  C7_theorem c7db 5 c7flight "AAA" "departure" 82800
    { airport_code := "AAA", curfew_start := some 82800,
      curfew_end := some 21600, strict_curfew := true, effective_from := 0 }
    82800 21600 (by decide) (by decide) (by decide) (Or.inl rfl) (by decide)

/-! Claim C8: run-to-run determinism. -/

/-- Airport-constraints row that only becomes effective on day 100. -/
def c8db : DB :=
  { airport_constraints :=
      [{ airport_code := "AAA", curfew_start := some 82800,
         curfew_end := some 21600, strict_curfew := true,
         effective_from := 100 }] }

/-- Flight departing AAA at 23:20, inside that curfew window. -/
def c8flight : Flight :=
  { flight_id := "C8A", flight_number := "CM801", carrier_code := "CM",
    origin_airport := "AAA", destination_airport := "BBB",
    departure_time := 84000, arrival_time := 10000,
    operating_days := "1234567", aircraft_type := "738" }

/-- C8 counterexample: the same flight set and the same reference snapshot
produce different issue sets on different run dates, because
`_get_airport_constraints` filters by SQL `CURRENT_DATE`. -/
theorem C8_counterexample :
    CurfewValidator.validate c8db 99 [c8flight] = [] ∧
    CurfewValidator.validate c8db 100 [c8flight] =
      [{ severity := "critical", category := "curfew_validation",
         flight_id := "C8A", flight_number := "CM801",
         issue_type := "curfew_violation" }] ∧
    CurfewValidator.validate c8db 99 [c8flight]
      ≠ CurfewValidator.validate c8db 100 [c8flight] := by
  refine ⟨by decide, by decide, by decide⟩

/-! RoutingValidator (`validators/routing_validator.py`). -/

namespace RoutingValidator

/-- Aircraft ranges in nautical miles. -/
def AIRCRAFT_RANGES : List (String × Nat) :=
  [("319", 3750), ("320", 3300), ("321", 3200), ("733", 3000), ("737", 3000),
   ("738", 3100), ("739", 3300), ("330", 6350), ("333", 6350), ("359", 8100),
   ("763", 6385), ("764", 6385), ("772", 7730), ("773", 7370), ("787", 7355),
   ("788", 7355), ("789", 7635), ("E90", 2300), ("E95", 2300), ("CR7", 2000),
   ("CR9", 2400), ("DH4", 1200)]

/-- Hardcoded airport distances (nautical miles). -/
def AIRPORT_DISTANCES : List ((String × String) × Nat) :=
  [(("JFK", "LHR"), 2999), (("LAX", "NRT"), 4766), (("LAX", "SYD"), 6511),
   (("DFW", "LHR"), 4115), (("ORD", "LHR"), 3428)]

/-- Hub airports for routing optimization. -/
def HUB_AIRPORTS : List String :=
  ["ATL", "DFW", "ORD", "LAX", "DEN", "JFK", "SFO", "IAH", "LHR",
   "CDG", "FRA", "AMS", "DXB", "SIN", "HKG", "ICN", "NRT", "SYD"]

/-- Translation of `_group_by_aircraft_and_date`: flights with a falsy
registration or date are skipped. -/
def groupByAircraftAndDate (flights : List Flight) :
    List ((String × Nat) × List Flight) :=
  groupByKey
    (fun f =>
      match f.aircraft_registration, f.effective_from with
      | some r, some d => if r = "" then none else some (r, d)
      | _, _ => none)
    flights

/-- Translation of `_find_positioning_flight`. -/
def findPositioningFlight (current next_flight : Flight)
    (all_flights : List Flight) : Option Flight :=
  all_flights.find? (fun fl =>
    fl.origin_airport == current.destination_airport &&
    fl.destination_airport == next_flight.origin_airport &&
    decide (current.arrival_time < fl.departure_time) &&
    decide (fl.departure_time < next_flight.departure_time))

/-- Translation of `_validate_routing_chain` (consecutive-pair continuity and
the circularity check). -/
def validateRoutingChain (flights : List Flight) (_aircraft_reg : String)
    (_date : Nat) : List Issue :=
  ((flights.zip flights.tail).flatMap (fun q =>
    if q.1.destination_airport ≠ q.2.origin_airport then
      match findPositioningFlight q.1 q.2 flights with
      | some _ => []
      | none =>
        [{ severity := "critical", category := "routing_validation",
           flight_id := q.2.flight_id, flight_number := q.2.flight_number,
           issue_type := "routing_discontinuity" }]
    else [])) ++
  (match flights.head?, flights.getLast? with
   | some first_flight, some last_flight =>
     if first_flight.origin_airport ≠ last_flight.destination_airport then
       [{ severity := "medium", category := "routing_validation",
          flight_id := last_flight.flight_id, flight_number := "Daily pattern",
          issue_type := "non_circular_routing" }]
     else []
   | _, _ => [])

/-- Translation of `_get_distance` (hardcoded table in both orders, then the
database, then the 2000 nm default; a falsy database distance falls through
to the default). -/
def getDistance (db : DB) (origin dest : String) : Nat :=
  match AIRPORT_DISTANCES.lookup (origin, dest) with
  | some d => d
  | none =>
    match AIRPORT_DISTANCES.lookup (dest, origin) with
    | some d => d
    | none =>
      let db_distance :=
        match db.airport_pairs.find? (fun r =>
            (r.origin_airport == origin && r.destination_airport == dest)
              || (r.origin_airport == dest && r.destination_airport == origin)) with
        | some r => some r.distance_nm
        | none => none
      if truthyNat db_distance then db_distance.getD 0 else 2000

/-- Translation of `_check_fuel_stop`. -/
def checkFuelStop (db : DB) (f : Flight) : Bool :=
  (db.flight_legs.filter (fun l => l.flight_id == f.flight_id)).length > 2

/-- Translation of `_validate_range_limitations`.  The source compares
`distance * 1.1 > max_range` on floats; it is mirrored here by the exact
rational comparison `11 * distance > 10 * max_range`. -/
def validateRangeLimitations (db : DB) (flights : List Flight) : List Issue :=
  flights.flatMap (fun f =>
    let max_range := (AIRCRAFT_RANGES.lookup f.aircraft_type).getD 3000
    let distance := getDistance db f.origin_airport f.destination_airport
    if 11 * distance > 10 * max_range then
      if checkFuelStop db f then []
      else
        [{ severity := "critical", category := "routing_validation",
           flight_id := f.flight_id, flight_number := f.flight_number,
           issue_type := "range_exceeded" }]
    else [])

/-- Translation of `_validate_hub_connectivity`. -/
def validateHubConnectivity (flights : List Flight) : List Issue :=
  let hub_flights := (flights.filter (fun f =>
    HUB_AIRPORTS.contains f.origin_airport
      || HUB_AIRPORTS.contains f.destination_airport)).length
  let spoke_flights := (flights.filter (fun f =>
    !(HUB_AIRPORTS.contains f.origin_airport
        || HUB_AIRPORTS.contains f.destination_airport))).length
  if flights.length > 3 ∧ spoke_flights > hub_flights then
    [{ severity := "low", category := "routing_validation",
       flight_id := (match flights with | [] => "" | g :: _ => g.flight_id),
       flight_number := "Daily pattern",
       issue_type := "low_hub_connectivity" }]
  else []

/-- Translation of `_check_positioning_efficiency`. -/
def checkPositioningEfficiency (flights : List Flight) : List Issue :=
  flights.flatMap (fun f =>
    if f.service_type == "positioning" || f.is_ferry then
      [{ severity := "low", category := "routing_validation",
         flight_id := f.flight_id, flight_number := f.flight_number,
         issue_type := "positioning_flight" }]
    else [])

/-- Translation of `RoutingValidator.validate`. -/
def validate (flights : List Flight) (db : DB) : List Issue :=
  (groupByAircraftAndDate flights).flatMap (fun p =>
    let sorted_flights := sortByKey (fun f => f.departure_time) p.2
    validateRoutingChain sorted_flights p.1.1 p.1.2
      ++ validateRangeLimitations db sorted_flights
      ++ validateHubConnectivity sorted_flights
      ++ checkPositioningEfficiency sorted_flights)

end RoutingValidator

/-! SlotValidator (`validators/slot_validator.py`). -/

namespace SlotValidator

/-- Level 3 coordinated airports. -/
def COORDINATED_AIRPORTS : List String :=
  ["LHR", "JFK", "LAX", "HND", "NRT", "CDG", "FRA", "AMS",
   "LGA", "ORD", "DCA", "SFO", "BOS", "EWR", "PHL", "DEN",
   "FCO", "MAD", "BCN", "ZRH", "MUC", "SIN", "HKG", "ICN"]

/-- Translation of `_time_within_tolerance` (parses only hours and minutes of
the `HH:MM:SS` strings: whole minutes of the seconds-of-day values). -/
def timeWithinTolerance (scheduled slot : Nat)
    (tolerance_before tolerance_after : Nat) : Bool :=
  let sched_minutes := scheduled / 60
  let slot_minutes := slot / 60
  let diff : Int := (sched_minutes : Int) - (slot_minutes : Int)
  decide (-(tolerance_before : Int) ≤ diff ∧ diff ≤ (tolerance_after : Int))

/-- Translation of `_validate_slot` (the `tol or 5` fallbacks are falsy-based,
see `orDefaultNat`). -/
def validateSlot (db : DB) (f : Flight) (airport slot_type : String)
    (scheduled_time : Nat) : List Issue :=
  match db.airport_slots.find? (fun s =>
      s.airport_code == airport &&
      s.slot_type == slot_type &&
      s.allocated_to_airline == f.carrier_code &&
      s.allocated_to_flight == f.flight_id) with
  | none =>
    [{ severity := "critical", category := "slot_validation",
       flight_id := f.flight_id, flight_number := f.flight_number,
       issue_type := "missing_slot" }]
  | some slot =>
    (if !(timeWithinTolerance scheduled_time slot.slot_time
          (orDefaultNat slot.tolerance_before_minutes 5)
          (orDefaultNat slot.tolerance_after_minutes 5)) then
      [{ severity := "high", category := "slot_validation",
         flight_id := f.flight_id, flight_number := f.flight_number,
         issue_type := "slot_time_mismatch" }]
    else []) ++
    (if !slot.confirmed then
      [{ severity := "medium", category := "slot_validation",
         flight_id := f.flight_id, flight_number := f.flight_number,
         issue_type := "slot_not_confirmed" }]
    else [])

/-- Translation of `SlotValidator.validate`. -/
def validate (flights : List Flight) (db : DB) : List Issue :=
  flights.flatMap (fun f =>
    (if COORDINATED_AIRPORTS.contains f.origin_airport then
      validateSlot db f f.origin_airport "departure" f.departure_time
    else []) ++
    (if COORDINATED_AIRPORTS.contains f.destination_airport then
      validateSlot db f f.destination_airport "arrival" f.arrival_time
    else []))

end SlotValidator

/-! CrewValidator (`validators/crew_validator.py`). -/

namespace CrewValidator

/-- Maximum flight-duty-period by sector count, in seconds (the source's
`MAX_FLIGHT_DUTY_PERIOD` hours 13 / 13 / 12.5 / 12 / 11.5 / 11 / 10, whose
float comparison against fractional hours is mirrored in seconds). -/
def maxFdpSeconds (sectors : Nat) : Nat :=
  if sectors = 1 then 46800
  else if sectors = 2 then 46800
  else if sectors = 3 then 45000
  else if sectors = 4 then 43200
  else if sectors = 5 then 41400
  else if sectors = 6 then 39600
  else 36000

/-- Minimum rest period (hours). -/
def MIN_REST_PERIOD : Nat := 12

/-- Reduced rest floor (hours). -/
def MIN_REST_REDUCED : Nat := 10

/-- Monthly flight-hour limit. -/
def MAX_MONTHLY_HOURS : Nat := 100

/-- Yearly flight-hour limit. -/
def MAX_YEARLY_HOURS : Nat := 1000

/-- Minimum crew requirements by category: (pilots, cabin crew). -/
def MIN_CREW_REQUIREMENTS : List (String × (Nat × Nat)) :=
  [("narrow_body", (2, 3)), ("wide_body", (2, 6)), ("regional", (2, 2))]

/-- Aircraft type categories (same tables as the aircraft validator). -/
def AIRCRAFT_CATEGORIES : List (String × List String) :=
  [("narrow_body", ["319", "320", "321", "733", "737", "738", "739"]),
   ("wide_body", ["330", "333", "359", "763", "764", "772", "773", "787", "788", "789"]),
   ("regional", ["E90", "E95", "CR7", "CR9", "DH4"])]

/-- Translation of `_get_aircraft_category` (crew-validator variant: falls
back to narrow body). -/
def getAircraftCategory (aircraft_type : String) : String :=
  match AIRCRAFT_CATEGORIES.find? (fun p => p.2.contains aircraft_type) with
  | some p => p.1
  | none => "narrow_body"

/-- Pilot-role test used throughout. -/
def isPilotRole (role : String) : Bool :=
  role == "pilot" || role == "captain" || role == "first_officer"

/-- Translation of `_validate_crew_complement`. -/
def validateCrewComplement (db : DB) (f : Flight) : List Issue :=
  let assignments := db.crew_assignments.filter (fun a => a.flight_id == f.flight_id)
  let category := getAircraftCategory f.aircraft_type
  let min_req := (MIN_CREW_REQUIREMENTS.lookup category).getD
    ((MIN_CREW_REQUIREMENTS.lookup "narrow_body").getD (2, 3))
  let pilot_count := (assignments.filter (fun a => isPilotRole a.crew_role)).length
  let cabin_count := (assignments.filter (fun a =>
    a.crew_role == "cabin_crew" || a.crew_role == "flight_attendant")).length
  (if pilot_count < min_req.1 then
    [{ severity := "critical", category := "crew_validation",
       flight_id := f.flight_id, flight_number := f.flight_number,
       issue_type := "insufficient_pilots" }]
  else []) ++
  (if cabin_count < min_req.2 then
    [{ severity := "critical", category := "crew_validation",
       flight_id := f.flight_id, flight_number := f.flight_number,
       issue_type := "insufficient_cabin_crew" }]
  else [])

/-- The `crew_assignments JOIN crew_availability` rows of one flight. -/
def joinCrew (db : DB) (flight_id : String) :
    List (CrewAssignmentRow × CrewAvailabilityRow) :=
  (db.crew_assignments.filter (fun a => a.flight_id == flight_id)).flatMap (fun a =>
    (db.crew_availability.filter (fun c =>
      c.crew_member_id == a.crew_member_id)).map (fun c => (a, c)))

/-- Translation of `_validate_crew_qualifications` (an empty certification list
is falsy, equivalently `medical_current` is absent from it). -/
def validateCrewQualifications (db : DB) (f : Flight) : List Issue :=
  (joinCrew db f.flight_id).flatMap (fun p =>
    (if isPilotRole p.1.crew_role
        && !(p.2.aircraft_type_ratings.contains f.aircraft_type) then
      [{ severity := "critical", category := "crew_validation",
         flight_id := f.flight_id, flight_number := f.flight_number,
         issue_type := "missing_type_rating" }]
    else []) ++
    (if isPilotRole p.1.crew_role
        && !(p.2.certifications.contains "medical_current") then
      [{ severity := "critical", category := "crew_validation",
         flight_id := f.flight_id, flight_number := f.flight_number,
         issue_type := "invalid_medical_certificate" }]
    else []))

/-- Pilot assignments of one flight (`crew_role IN ('pilot','captain',
'first_officer')`). -/
def pilotAssignments (db : DB) (flight_id : String) : List CrewAssignmentRow :=
  db.crew_assignments.filter (fun a =>
    a.flight_id == flight_id && isPilotRole a.crew_role)

/-- Duty flights of a crew member on a date: the member's assigned `flights`
rows with that `effective_from`, ordered by departure time. -/
def dutyFlights (db : DB) (crew_member_id : String) (date : Option Nat) :
    List DbFlightRow :=
  sortByKey (fun r => r.departure_time)
    ((db.crew_assignments.filter (fun ca =>
      ca.crew_member_id == crew_member_id)).flatMap (fun ca =>
        db.flights.filter (fun r =>
          r.flight_id == ca.flight_id && r.effective_from == date)))

/-- Translation of `_validate_duty_limits` (duty window: first departure minus
30 minutes to last arrival plus 15 minutes; float hour comparison mirrored in
seconds). -/
def validateDutyLimits (nowD : Nat) (db : DB) (f : Flight) : List Issue :=
  (pilotAssignments db f.flight_id).flatMap (fun a =>
    match dutyFlights db a.crew_member_id f.effective_from with
    | [] => []
    | df :: rest =>
      let first_dep := df.departure_time
      let last_arr := ((df :: rest).getLastD df).arrival_time
      let duty_start := addMinutesToTime nowD first_dep (-30)
      let duty_end := addMinutesToTime nowD last_arr 15
      let duty_seconds := timeDiffSecondsD nowD duty_start duty_end
      let sectors := (df :: rest).length
      if duty_seconds > maxFdpSeconds sectors then
        [{ severity := "critical", category := "crew_validation",
           flight_id := f.flight_id, flight_number := f.flight_number,
           issue_type := "fdp_exceeded" }]
      else [])

/-- Translation of `_validate_rest_requirements` (`MAX(arrival_time)` over the
member's flights on strictly earlier dates; 12-hour / 10-hour float
comparisons mirrored in seconds). -/
def validateRestRequirements (nowD : Nat) (db : DB) (f : Flight) : List Issue :=
  (db.crew_assignments.filter (fun a =>
    a.flight_id == f.flight_id &&
    (isPilotRole a.crew_role || a.crew_role == "cabin_crew"))).flatMap (fun a =>
    let prev_arrivals :=
      (db.crew_assignments.filter (fun ca =>
        ca.crew_member_id == a.crew_member_id)).flatMap (fun ca =>
          (db.flights.filter (fun r =>
            r.flight_id == ca.flight_id &&
            (match r.effective_from, f.effective_from with
             | some rd, some fd => decide (rd < fd)
             | _, _ => false))).map (fun r => r.arrival_time))
    match prev_arrivals.max? with
    | none => []
    | some prev_arrival =>
      let prev_end := addMinutesToTime nowD prev_arrival 15
      let current_start := addMinutesToTime nowD f.departure_time (-30)
      let rest_seconds := timeDiffSecondsD nowD prev_end current_start
      if rest_seconds < MIN_REST_PERIOD * 3600 then
        [{ severity := if rest_seconds < MIN_REST_REDUCED * 3600
             then "critical" else "high",
           category := "crew_validation",
           flight_id := f.flight_id, flight_number := f.flight_number,
           issue_type := "insufficient_rest" }]
      else [])

/-- Translation of `_validate_hour_limits` (`SUM(...)` over the member's
`crew_availability` rows, `or 0` on the empty sum). -/
def validateHourLimits (db : DB) (f : Flight) : List Issue :=
  (pilotAssignments db f.flight_id).flatMap (fun a =>
    let monthly_hours :=
      ((db.crew_availability.filter (fun c =>
        c.crew_member_id == a.crew_member_id)).map
          (fun c => c.monthly_hours_flown)).sum
    let yearly_hours :=
      ((db.crew_availability.filter (fun c =>
        c.crew_member_id == a.crew_member_id)).map
          (fun c => c.yearly_hours_flown)).sum
    (if monthly_hours ≥ MAX_MONTHLY_HOURS then
      [{ severity := "critical", category := "crew_validation",
         flight_id := f.flight_id, flight_number := f.flight_number,
         issue_type := "monthly_hours_exceeded" }]
    else []) ++
    (if yearly_hours ≥ MAX_YEARLY_HOURS then
      [{ severity := "high", category := "crew_validation",
         flight_id := f.flight_id, flight_number := f.flight_number,
         issue_type := "yearly_hours_exceeded" }]
    else []))

/-- Translation of `_validate_crew_base`. -/
def validateCrewBase (db : DB) (f : Flight) : List Issue :=
  (joinCrew db f.flight_id).flatMap (fun p =>
    if !(p.2.base_airport == f.origin_airport) then
      match db.flights.find? (fun r =>
          r.origin_airport == p.2.base_airport &&
          r.destination_airport == f.origin_airport &&
          decide (r.arrival_time < f.departure_time) &&
          r.effective_from == f.effective_from) with
      | some _ => []
      | none =>
        [{ severity := "medium", category := "crew_validation",
           flight_id := f.flight_id, flight_number := f.flight_number,
           issue_type := "crew_base_mismatch" }]
    else [])

/-- Translation of `CrewValidator.validate`. -/
def validate (nowD : Nat) (flights : List Flight) (db : DB) : List Issue :=
  flights.flatMap (fun f =>
    validateCrewComplement db f
      ++ validateCrewQualifications db f
      ++ validateDutyLimits nowD db f
      ++ validateRestRequirements nowD db f
      ++ validateHourLimits db f
      ++ validateCrewBase db f)

end CrewValidator

/-! RegulatoryValidator (`validators/regulatory_validator.py`). -/

namespace RegulatoryValidator

/-- Countries with strict cabotage restrictions. -/
def STRICT_CABOTAGE_COUNTRIES : List String :=
  ["US", "CA", "AU", "NZ", "BR", "AR", "CL", "CN", "IN", "RU",
   "GB", "FR", "DE", "IT", "ES", "JP", "KR"]

/-- EU/EEA countries. -/
def EU_EEA_COUNTRIES : List String :=
  ["AT", "BE", "BG", "HR", "CY", "CZ", "DK", "EE", "FI", "FR",
   "DE", "GR", "HU", "IE", "IT", "LV", "LT", "LU", "MT", "NL",
   "PL", "PT", "RO", "SK", "SI", "ES", "SE", "IS", "LI", "NO"]

/-- Carrier home countries (`_get_carrier_country`). -/
def CARRIER_COUNTRIES : List (String × String) :=
  [("AA", "US"), ("DL", "US"), ("UA", "US"), ("WN", "US"), ("B6", "US"),
   ("BA", "GB"), ("VS", "GB"), ("AF", "FR"), ("LH", "DE"), ("KL", "NL"),
   ("IB", "ES"), ("AZ", "IT"), ("EI", "IE"), ("SK", "SE"), ("LX", "CH"),
   ("CM", "PA"), ("AV", "CO"), ("LA", "CL"), ("AR", "AR"), ("G3", "BR"),
   ("NH", "JP"), ("JL", "JP"), ("KE", "KR"), ("OZ", "KR"), ("CA", "CN"),
   ("SQ", "SG"), ("TG", "TH"), ("QF", "AU"), ("NZ", "NZ"), ("EK", "AE")]

/-- Airport countries (`_get_country_from_airport`, regulatory variant). -/
def AIRPORT_COUNTRIES : List (String × String) :=
  [("JFK", "US"), ("LAX", "US"), ("ORD", "US"), ("ATL", "US"), ("DFW", "US"),
   ("LHR", "GB"), ("CDG", "FR"), ("FRA", "DE"), ("AMS", "NL"), ("MAD", "ES"),
   ("NRT", "JP"), ("HND", "JP"), ("ICN", "KR"), ("PVG", "CN"), ("HKG", "HK"),
   ("DXB", "AE"), ("SIN", "SG"), ("BKK", "TH"), ("SYD", "AU"), ("MEL", "AU"),
   ("YYZ", "CA"), ("YVR", "CA"), ("GRU", "BR"), ("EZE", "AR"), ("SCL", "CL"),
   ("PTY", "PA"), ("BOG", "CO"), ("LIM", "PE"), ("GIG", "BR"), ("MIA", "US"),
   ("IAH", "US"), ("EWR", "US"), ("SFO", "US"), ("DEN", "US"), ("LGA", "US"),
   ("FCO", "IT"), ("BCN", "ES"), ("ZRH", "CH"), ("MUC", "DE"), ("DCA", "US"),
   ("BOS", "US"), ("PHL", "US"), ("SNA", "US"), ("BUR", "US"), ("SAN", "US")]

/-- Translation of `_get_carrier_country`. -/
def getCarrierCountry (carrier_code : String) : String :=
  (CARRIER_COUNTRIES.lookup carrier_code).getD "XX"

/-- Translation of `_get_country_from_airport`. -/
def getCountryFromAirport (airport_code : String) : String :=
  (AIRPORT_COUNTRIES.lookup airport_code).getD "XX"

/-- Translation of `_determine_required_freedom`. -/
def determineRequiredFreedom (carrier_country origin_country dest_country : String) :
    Nat :=
  if origin_country = carrier_country ∧ dest_country = carrier_country then 8
  else if origin_country = carrier_country then 3
  else if dest_country = carrier_country then 4
  else if origin_country ≠ carrier_country ∧ dest_country ≠ carrier_country then 5
  else 0

/-- Translation of `_check_traffic_rights` (existence of a currently effective
bilateral row of the carrier granting the freedom for the country pair). -/
def checkTrafficRights (db : DB) (today : Nat) (carrier origin_country dest_country :
    String) (freedom : Nat) : Bool :=
  db.bilateral_agreements.any (fun b =>
    b.carrier_code == carrier &&
    ((b.country_a == origin_country && b.country_b == dest_country)
      || (b.country_a == dest_country && b.country_b == origin_country)) &&
    b.freedoms_granted.contains freedom &&
    decide (b.effective_from ≤ today) &&
    (match b.effective_to with
     | none => true
     | some e => decide (today ≤ e)))

/-- Translation of `_validate_traffic_rights`. -/
def validateTrafficRights (db : DB) (today : Nat) (f : Flight) : List Issue :=
  let origin_country := getCountryFromAirport f.origin_airport
  let dest_country := getCountryFromAirport f.destination_airport
  let carrier_country := getCarrierCountry f.carrier_code
  let required_freedom := determineRequiredFreedom carrier_country origin_country dest_country
  if !(checkTrafficRights db today f.carrier_code origin_country dest_country
        required_freedom) then
    [{ severity := "critical", category := "regulatory_validation",
       flight_id := f.flight_id, flight_number := f.flight_number,
       issue_type := "missing_traffic_rights" }]
  else []

/-- Translation of `_validate_cabotage` (`flight.get("operating_carrier") !=
carrier_code` is true for an absent operating carrier, so such flights always
count as wet leases). -/
def validateCabotage (f : Flight) : List Issue :=
  let origin_country := getCountryFromAirport f.origin_airport
  let dest_country := getCountryFromAirport f.destination_airport
  let carrier_country := getCarrierCountry f.carrier_code
  if origin_country = dest_country ∧ carrier_country ≠ origin_country then
    if EU_EEA_COUNTRIES.contains origin_country
        && EU_EEA_COUNTRIES.contains carrier_country then []
    else if STRICT_CABOTAGE_COUNTRIES.contains origin_country then
      let is_wet_lease := !(f.operating_carrier == some f.carrier_code)
      if !is_wet_lease then
        [{ severity := "critical", category := "regulatory_validation",
           flight_id := f.flight_id, flight_number := f.flight_number,
           issue_type := "cabotage_violation" }]
      else []
    else []
  else []

/-- Translation of `_get_bilateral_agreement` (first currently effective row
joining the carrier's country with either endpoint country). -/
def getBilateralAgreement (db : DB) (today : Nat)
    (carrier_country origin_country dest_country : String) : Option BilateralRow :=
  db.bilateral_agreements.find? (fun b =>
    ((b.country_a == carrier_country
        && (b.country_b == origin_country || b.country_b == dest_country))
      || (b.country_b == carrier_country
        && (b.country_a == origin_country || b.country_a == dest_country))) &&
    decide (b.effective_from ≤ today) &&
    (match b.effective_to with
     | none => true
     | some e => decide (today ≤ e)))

/-- Translation of `_check_frequency_limits` (SQL `NULL` date comparisons
exclude the row). -/
def checkFrequencyLimits (db : DB) (f : Flight) (carrier origin destination : String)
    (agreement : BilateralRow) : List Issue :=
  if !(truthyNat agreement.max_weekly_frequencies) then []
  else
    let current_freq := (db.flights.filter (fun r =>
      r.carrier_code == carrier &&
      r.origin_airport == origin &&
      r.destination_airport == destination &&
      (match r.effective_from, f.effective_to with
       | some a, some b => decide (a ≤ b)
       | _, _ => false) &&
      (match r.effective_to, f.effective_from with
       | some a, some b => decide (b ≤ a)
       | _, _ => false))).length
    if current_freq > agreement.max_weekly_frequencies.getD 0 then
      [{ severity := "high", category := "regulatory_validation",
         flight_id := f.flight_id, flight_number := f.flight_number,
         issue_type := "frequency_limit_exceeded" }]
    else []

/-- Translation of `_validate_bilateral_agreement`. -/
def validateBilateralAgreement (db : DB) (today : Nat) (f : Flight) : List Issue :=
  let origin_country := getCountryFromAirport f.origin_airport
  let dest_country := getCountryFromAirport f.destination_airport
  let carrier_country := getCarrierCountry f.carrier_code
  if origin_country = dest_country then []
  else
    match getBilateralAgreement db today carrier_country origin_country dest_country with
    | none =>
      [{ severity := "critical", category := "regulatory_validation",
         flight_id := f.flight_id, flight_number := f.flight_number,
         issue_type := "no_bilateral_agreement" }]
    | some agreement =>
      (if truthyNat agreement.max_weekly_frequencies then
        checkFrequencyLimits db f f.carrier_code f.origin_airport
          f.destination_airport agreement
      else []) ++
      (if truthyStr agreement.capacity_limitations then
        [{ severity := "medium", category := "regulatory_validation",
           flight_id := f.flight_id, flight_number := f.flight_number,
           issue_type := "capacity_limitations" }]
      else [])

/-- Translation of `_check_designated_carrier` (a stub in the source: always
true). -/
def checkDesignatedCarrier (_carrier _carrier_country _origin_country
    _dest_country : String) : Bool := true

/-- Translation of `_validate_designated_carrier`. -/
def validateDesignatedCarrier (f : Flight) : List Issue :=
  let origin_country := getCountryFromAirport f.origin_airport
  let dest_country := getCountryFromAirport f.destination_airport
  let carrier_country := getCarrierCountry f.carrier_code
  if origin_country = dest_country then []
  else if !(checkDesignatedCarrier f.carrier_code carrier_country origin_country
      dest_country) then
    [{ severity := "critical", category := "regulatory_validation",
       flight_id := f.flight_id, flight_number := f.flight_number,
       issue_type := "not_designated_carrier" }]
  else []

/-- Translation of `_check_wet_lease_approval` (a stub: always true). -/
def checkWetLeaseApproval (_marketing _operating : String) (_f : Flight) : Bool := true

/-- Translation of `_validate_wet_lease`. -/
def validateWetLease (f : Flight) : List Issue :=
  let marketing_carrier := f.carrier_code
  let operating_carrier := f.operating_carrier.getD marketing_carrier
  if operating_carrier ≠ marketing_carrier then
    if !(checkWetLeaseApproval marketing_carrier operating_carrier f) then
      [{ severity := "critical", category := "regulatory_validation",
         flight_id := f.flight_id, flight_number := f.flight_number,
         issue_type := "wet_lease_not_approved" }]
    else []
  else []

/-- Translation of `_check_codeshare_approval` (a stub: always true). -/
def checkCodeshareApproval (_marketing _operating : String) (_f : Flight) : Bool := true

/-- Translation of `_validate_codeshare` (rows of the flight whose marketing
carrier differs from its carrier code; a `NULL` marketing carrier is excluded
by the SQL inequality). -/
def validateCodeshare (db : DB) (f : Flight) : List Issue :=
  let codeshares := db.flights.filter (fun r =>
    r.flight_id == f.flight_id &&
    (match r.marketing_carrier with
     | some m => !(m == r.carrier_code)
     | none => false))
  codeshares.flatMap (fun r =>
    if !(checkCodeshareApproval (r.marketing_carrier.getD "")
        (r.operating_carrier.getD "") f) then
      [{ severity := "high", category := "regulatory_validation",
         flight_id := f.flight_id, flight_number := f.flight_number,
         issue_type := "codeshare_not_approved" }]
    else [])

/-- Translation of `RegulatoryValidator.validate`. -/
def validate (db : DB) (today : Nat) (flights : List Flight) : List Issue :=
  flights.flatMap (fun f =>
    validateTrafficRights db today f
      ++ validateCabotage f
      ++ validateBilateralAgreement db today f
      ++ validateDesignatedCarrier f
      ++ validateWetLease f
      ++ validateCodeshare db f)

end RegulatoryValidator

/-! Orchestrator and aggregator (`agents/schedule_validation/agent.py`).
The LangGraph workflow runs the load step, the eight validator nodes and the
compile step; an exception anywhere propagates out of `graph.invoke` and is
caught by `validate`'s blanket handler, which returns a `failed` result.
Fallible steps are modelled with `Except`. -/

namespace Agent

/-- The workflow state (the fields of `ValidationState` the validators and
the aggregator touch). -/
structure ValidationState where
  flights_to_validate : List Flight
  schedule_metadata : List (String × String) := []
  validation_results : List (String × List Issue) := []
  overall_status : String := "valid"
deriving Repr, DecidableEq, Inhabited

/-- Python dict assignment `state["validation_results"][key] = issues`. -/
def setResult (results : List (String × List Issue)) (key : String)
    (issues : List Issue) : List (String × List Issue) :=
  if results.any (fun p => p.1 = key) then
    results.map (fun p => if p.1 = key then (key, issues) else p)
  else
    results ++ [(key, issues)]

/-- Workflow node `validate_airport_slots`: reads the flights and the
reference data, writes only the `slot_validation` result list. -/
def validate_airport_slots (db : DB) (st : ValidationState) :
    ValidationState × DB :=
  ({ st with validation_results :=
      (setResult st.validation_results "slot_validation"
        (SlotValidator.validate st.flights_to_validate db)) }, db)

/-- Workflow node `validate_aircraft_availability`. -/
def validate_aircraft_availability (nowD : Nat) (db : DB) (st : ValidationState) :
    ValidationState × DB :=
  ({ st with validation_results :=
      (setResult st.validation_results "aircraft_validation"
        (AircraftValidator.validate nowD st.flights_to_validate db)) }, db)

/-- Workflow node `validate_crew_feasibility`. -/
def validate_crew_feasibility (nowD : Nat) (db : DB) (st : ValidationState) :
    ValidationState × DB :=
  ({ st with validation_results :=
      (setResult st.validation_results "crew_validation"
        (CrewValidator.validate nowD st.flights_to_validate db)) }, db)

/-- Workflow node `validate_minimum_connect_times`. -/
def validate_minimum_connect_times (nowD : Nat) (db : DB) (st : ValidationState) :
    ValidationState × DB :=
  ({ st with validation_results :=
      (setResult st.validation_results "mct_validation"
        (MCTValidator.validate nowD st.flights_to_validate db)) }, db)

/-- Workflow node `validate_airport_hours` (curfews). -/
def validate_airport_hours (today : Nat) (db : DB) (st : ValidationState) :
    ValidationState × DB :=
  ({ st with validation_results :=
      (setResult st.validation_results "curfew_validation"
        (CurfewValidator.validate db today st.flights_to_validate)) }, db)

/-- Workflow node `validate_regulatory_compliance`. -/
def validate_regulatory_compliance (today : Nat) (db : DB) (st : ValidationState) :
    ValidationState × DB :=
  ({ st with validation_results :=
      (setResult st.validation_results "regulatory_validation"
        (RegulatoryValidator.validate db today st.flights_to_validate)) }, db)

/-- Workflow node `validate_aircraft_routing`. -/
def validate_aircraft_routing (db : DB) (st : ValidationState) :
    ValidationState × DB :=
  ({ st with validation_results :=
      (setResult st.validation_results "routing_validation"
        (RoutingValidator.validate st.flights_to_validate db)) }, db)

/-- Workflow node `validate_schedule_patterns`. -/
def validate_schedule_patterns (nowD : Nat) (db : DB) (st : ValidationState) :
    ValidationState × DB :=
  ({ st with validation_results :=
      (setResult st.validation_results "pattern_validation"
        (PatternValidator.validate nowD st.flights_to_validate)) }, db)

/-- Status derivation of `compile_validation_results` (the node also computes
a high-severity count, which does not influence the status). -/
def overallStatusOf (results : List (String × List Issue)) : String :=
  let total_issues : Nat := (results.map (fun p => p.2.length)).sum
  let critical_count : Nat := (results.map (fun p =>
    (p.2.filter (fun i => i.severity == "critical")).length)).sum
  if critical_count > 0 then "critical_errors"
  else if total_issues > 0 then "warnings"
  else "valid"

/-- Workflow node `compile_validation_results`. -/
def compile_validation_results (st : ValidationState) : ValidationState :=
  { st with overall_status := overallStatusOf st.validation_results }

/-- Run the validator nodes in workflow order, collecting each category's
issue list; a validator raising (an `Except.error`) aborts the whole
`graph.invoke`. -/
def collectValidatorResults (flights : List Flight) :
    List (String × (List Flight → Except String (List Issue))) →
    Except String (List (String × List Issue))
  | [] => Except.ok []
  | (name, v) :: rest =>
    match v flights with
    | Except.error e => Except.error e
    | Except.ok issues =>
      match collectValidatorResults flights rest with
      | Except.error e => Except.error e
      | Except.ok results => Except.ok ((name, issues) :: results)

/-- The workflow of `_build_graph` as invoked by `validate`: load the flights,
run every validator, compile the results.  Any step's exception propagates. -/
def runWorkflow (load : Except String (List Flight))
    (validators : List (String × (List Flight → Except String (List Issue)))) :
    Except String ValidationState :=
  match load with
  | Except.error e => Except.error e
  | Except.ok flights =>
    match collectValidatorResults flights validators with
    | Except.error e => Except.error e
    | Except.ok results =>
      Except.ok (compile_validation_results
        { flights_to_validate := flights, validation_results := results })

/-- What `ScheduleValidationAgent.validate` returns: on an exception anywhere
in the workflow, a result with status `failed`, the error message and no
per-category results. -/
structure AgentResult where
  status : String
  validation_results : List (String × List Issue)
  error : Option String
deriving Repr, DecidableEq, Inhabited

/-- Translation of `ScheduleValidationAgent.validate`'s try/except around
`graph.invoke`. -/
def agentValidate (load : Except String (List Flight))
    (validators : List (String × (List Flight → Except String (List Issue)))) :
    AgentResult :=
  match runWorkflow load validators with
  | Except.error e =>
    { status := "failed", validation_results := [], error := some e }
  | Except.ok st =>
    { status := st.overall_status, validation_results := st.validation_results,
      error := none }

/-- The eight validators in workflow registration order, none failing (the
healthy instantiation of the workflow over the embedded validators). -/
def theValidators (nowD today : Nat) (db : DB) :
    List (String × (List Flight → Except String (List Issue))) :=
  [("slot_validation", fun fl => Except.ok (SlotValidator.validate fl db)),
   ("aircraft_validation", fun fl => Except.ok (AircraftValidator.validate nowD fl db)),
   ("crew_validation", fun fl => Except.ok (CrewValidator.validate nowD fl db)),
   ("mct_validation", fun fl => Except.ok (MCTValidator.validate nowD fl db)),
   ("curfew_validation", fun fl => Except.ok (CurfewValidator.validate db today fl)),
   ("regulatory_validation", fun fl => Except.ok (RegulatoryValidator.validate db today fl)),
   ("routing_validation", fun fl => Except.ok (RoutingValidator.validate fl db)),
   ("pattern_validation", fun fl => Except.ok (PatternValidator.validate nowD fl))]

end Agent

/-! Claim C1 and C2 helper lemmas. -/

theorem sum_map_eq_zero_iff {α : Type} (l : List α) (f : α → Nat) :
    (l.map f).sum = 0 ↔ ∀ x ∈ l, f x = 0 := by
  induction l with
  | nil => simp
  | cons a l ih => simp [ih, Nat.add_eq_zero]

theorem critical_count_pos_iff (results : List (String × List Issue)) :
    0 < ((results.map (fun p =>
        (p.2.filter (fun i => i.severity == "critical")).length)).sum)
      ↔ ∃ p ∈ results, ∃ i ∈ p.2, i.severity = "critical" := by
  rw [Nat.pos_iff_ne_zero, Ne, sum_map_eq_zero_iff]
  constructor
  · intro h
    push_neg at h
    rcases h with ⟨p, hp, hlen⟩
    have hne : p.2.filter (fun i => i.severity == "critical") ≠ [] := by
      intro hnil
      exact hlen (by rw [hnil]; rfl)
    rcases List.exists_mem_of_ne_nil _ hne with ⟨i, hi⟩
    rcases List.mem_filter.mp hi with ⟨hi2, hsev⟩
    exact ⟨p, hp, i, hi2, by simpa using hsev⟩
  · intro ⟨p, hp, i, hi, hsev⟩ h
    have h0 := h p hp
    have : i ∈ p.2.filter (fun i => i.severity == "critical") :=
      List.mem_filter.mpr ⟨hi, by simp [hsev]⟩
    rw [List.length_eq_zero] at h0
    rw [h0] at this
    cases this

theorem total_count_pos_iff (results : List (String × List Issue)) :
    0 < ((results.map (fun p => p.2.length)).sum)
      ↔ ∃ p ∈ results, p.2 ≠ [] := by
  rw [Nat.pos_iff_ne_zero, Ne, sum_map_eq_zero_iff]
  constructor
  · intro h
    push_neg at h
    rcases h with ⟨p, hp, hlen⟩
    exact ⟨p, hp, fun hnil => hlen (by rw [hnil]; rfl)⟩
  · intro ⟨p, hp, hne⟩ h
    exact hne (List.length_eq_zero.mp (h p hp))

theorem overallStatusOf_ne_failed (results : List (String × List Issue)) :
    Agent.overallStatusOf results ≠ "failed" := by
  unfold Agent.overallStatusOf
  simp only []
  split_ifs <;> decide

theorem runWorkflow_ok_status (load : Except String (List Flight))
    (validators : List (String × (List Flight → Except String (List Issue))))
    (st : Agent.ValidationState)
    (h : Agent.runWorkflow load validators = Except.ok st) :
    st.overall_status = Agent.overallStatusOf st.validation_results := by
  cases load with
  | error e => simp [Agent.runWorkflow] at h
  | ok flights =>
    cases hc : Agent.collectValidatorResults flights validators with
    | error e => simp [Agent.runWorkflow, hc] at h
    | ok results =>
      simp only [Agent.runWorkflow, hc, Except.ok.injEq] at h
      subst h
      rfl

theorem overallStatusOf_spec (results : List (String × List Issue)) :
    ((∃ p ∈ results, ∃ i ∈ p.2, i.severity = "critical") →
      Agent.overallStatusOf results = "critical_errors") ∧
    ((¬ ∃ p ∈ results, ∃ i ∈ p.2, i.severity = "critical") →
      (∃ p ∈ results, p.2 ≠ []) → Agent.overallStatusOf results = "warnings") ∧
    ((¬ ∃ p ∈ results, p.2 ≠ []) → Agent.overallStatusOf results = "valid") := by
  unfold Agent.overallStatusOf
  simp only []
  split_ifs with h1 h2
  · refine ⟨fun _ => rfl,
      fun hnc _ => absurd ((critical_count_pos_iff results).mp h1) hnc,
      fun hnt => ?_⟩
    rcases (critical_count_pos_iff results).mp h1 with ⟨p, hp, i, hi, _⟩
    exact absurd ⟨p, hp, fun hnil => by rw [hnil] at hi; cases hi⟩ hnt
  · exact ⟨fun hc => absurd ((critical_count_pos_iff results).mpr hc) h1,
      fun _ _ => rfl,
      fun hnt => absurd ((total_count_pos_iff results).mp h2) hnt⟩
  · exact ⟨fun hc => absurd ((critical_count_pos_iff results).mpr hc) h1,
      fun _ ht => absurd ((total_count_pos_iff results).mpr ht) h2,
      fun _ => rfl⟩

/-- C1 as amended: when the load and every validator succeed, the compiled
status is critical_errors / warnings / valid exactly as the claim's
three-way rule says; but the status `failed` arises exactly when any step of
the workflow raises — a validator infrastructure error included — not only
when the flight/schedule metadata cannot be loaded. -/
theorem C1_theorem (load : Except String (List Flight))
    (validators : List (String × (List Flight → Except String (List Issue)))) :
    ((Agent.agentValidate load validators).status = "failed" ↔
      ∃ e, Agent.runWorkflow load validators = Except.error e) ∧
    (∀ st, Agent.runWorkflow load validators = Except.ok st →
      (Agent.agentValidate load validators).status = st.overall_status ∧
      ((∃ p ∈ st.validation_results, ∃ i ∈ p.2, i.severity = "critical") →
        st.overall_status = "critical_errors") ∧
      ((¬ ∃ p ∈ st.validation_results, ∃ i ∈ p.2, i.severity = "critical") →
        (∃ p ∈ st.validation_results, p.2 ≠ []) →
        st.overall_status = "warnings") ∧
      ((¬ ∃ p ∈ st.validation_results, p.2 ≠ []) →
        st.overall_status = "valid")) := by
  cases hrw : Agent.runWorkflow load validators with
  | error e =>
    constructor
    · constructor
      · intro _
        exact ⟨e, rfl⟩
      · intro _
        unfold Agent.agentValidate
        rw [hrw]
    · intro st hst
      exact Except.noConfusion hst
  | ok st0 =>
    have hstat := runWorkflow_ok_status load validators st0 hrw
    constructor
    · constructor
      · intro hfail
        unfold Agent.agentValidate at hfail
        rw [hrw] at hfail
        have hfail' : st0.overall_status = "failed" := hfail
        rw [hstat] at hfail'
        exact absurd hfail' (overallStatusOf_ne_failed st0.validation_results)
      · intro ⟨e, he⟩
        exact Except.noConfusion he
    · intro st hst
      injection hst with h'
      subst h'
      refine ⟨?_, ?_⟩
      · unfold Agent.agentValidate
        rw [hrw]
      · rw [hstat]
        exact overallStatusOf_spec st0.validation_results

/-- Failing slot validator used by the C1 counterexample. -/
def c1validators : List (String × (List Flight → Except String (List Issue))) :=
  [("slot_validation", fun _ => Except.error "connection refused")]

/-- C1 counterexample: the flight load succeeds (the workflow receives
`Except.ok`), yet the run ends with status `failed` because a validator
raised — contradicting "failed only when metadata cannot be loaded". -/
theorem C1_counterexample :
    (Agent.agentValidate (Except.ok ([] : List Flight)) c1validators).status
      = "failed" := rfl

/-- A validator of the list raising makes the whole collection step raise. -/
theorem collect_error_of_mem (flights : List Flight)
    (name : String) (v : List Flight → Except String (List Issue)) (e : String) :
    ∀ validators : List (String × (List Flight → Except String (List Issue))),
      (name, v) ∈ validators → v flights = Except.error e →
      ∃ e', Agent.collectValidatorResults flights validators = Except.error e' := by
  intro validators
  induction validators with
  | nil =>
    intro hmem _
    cases hmem
  | cons hd tl ih =>
    intro hmem hv
    rcases List.mem_cons.mp hmem with heq | htl
    · refine ⟨e, ?_⟩
      rw [← heq]
      simp only [Agent.collectValidatorResults, hv]
    · rcases ih htl hv with ⟨e', he'⟩
      rcases hd with ⟨hdname, hdv⟩
      cases hhd : hdv flights with
      | error e'' =>
        exact ⟨e'', by simp only [Agent.collectValidatorResults, hhd]⟩
      | ok issues =>
        exact ⟨e', by simp only [Agent.collectValidatorResults, hhd, he']⟩

/-- C2 as amended: a validator failing with an infrastructure error aborts
the whole run — the error propagates out of the workflow, the agent returns
status `failed` with the error recorded, and no per-category results (in
particular no synthetic `category_incomplete` issue) are produced. -/
theorem C2_theorem (flights : List Flight)
    (validators : List (String × (List Flight → Except String (List Issue))))
    (name : String) (v : List Flight → Except String (List Issue)) (e : String)
    (hmem : (name, v) ∈ validators) (hv : v flights = Except.error e) :
    (Agent.agentValidate (Except.ok flights) validators).status = "failed" ∧
    (Agent.agentValidate (Except.ok flights) validators).validation_results = [] ∧
    (Agent.agentValidate (Except.ok flights) validators).error.isSome = true ∧
    (∀ p ∈ (Agent.agentValidate (Except.ok flights) validators).validation_results,
      ∀ i ∈ p.2, i.issue_type ≠ "category_incomplete") := by
  obtain ⟨e', hcol⟩ := collect_error_of_mem flights name v e validators hmem hv
  have hrw : Agent.runWorkflow (Except.ok flights) validators = Except.error e' := by
    simp only [Agent.runWorkflow, hcol]
  unfold Agent.agentValidate
  rw [hrw]
  refine ⟨rfl, rfl, rfl, ?_⟩
  intro p hp
  cases hp

/-- Failing slot validator plus a healthy aircraft validator, used by the C2
counterexample and witness. -/
def c2validators : List (String × (List Flight → Except String (List Issue))) :=
  [("slot_validation", fun _ => Except.error "reference data source unreachable"),
   ("aircraft_validation", fun fl => Except.ok (AircraftValidator.validate 0 fl {}))]

/-- C2 counterexample: with one validator hitting an infrastructure error,
the run aborts: the overall result is `failed` with no category results at
all — no `category_incomplete` issue and no results from the remaining
categories — contradicting the claimed per-validator containment. -/
theorem C2_counterexample :
    Agent.agentValidate (Except.ok ([] : List Flight)) c2validators =
      { status := "failed", validation_results := [],
        error := some "reference data source unreachable" } := rfl

/-- C2 witness: the amended behaviour at the concrete failing run. -/
theorem C2_witness :
    (Agent.agentValidate (Except.ok ([] : List Flight)) c2validators).status
        = "failed" ∧
    (Agent.agentValidate (Except.ok ([] : List Flight))
        c2validators).validation_results = [] ∧
    (Agent.agentValidate (Except.ok ([] : List Flight))
        c2validators).error.isSome = true ∧
    (∀ p ∈ (Agent.agentValidate (Except.ok ([] : List Flight))
        c2validators).validation_results,
      ∀ i ∈ p.2, i.issue_type ≠ "category_incomplete") :=
  C2_theorem [] c2validators "slot_validation"
    (fun _ => Except.error "reference data source unreachable")
    "reference data source unreachable"
    (by simp [c2validators]) rfl

/-! Claim C8: date-invariance of the wall-clock uses. -/

theorem checkBankStructure_indep (d : Nat) (arrivals departures : List Flight) :
    PatternValidator.checkBankStructure d arrivals departures
      = PatternValidator.checkBankStructure 0 arrivals departures := by
  simp only [PatternValidator.checkBankStructure, timeDiffMinutesD_indep]

theorem validateHubBanks_indep (d : Nat) (flights : List Flight) :
    PatternValidator.validateHubBanks d flights
      = PatternValidator.validateHubBanks 0 flights := by
  simp only [PatternValidator.validateHubBanks, checkBankStructure_indep]

theorem patternValidate_indep (d : Nat) (flights : List Flight) :
    PatternValidator.validate d flights = PatternValidator.validate 0 flights := by
  simp only [PatternValidator.validate, validateHubBanks_indep]

theorem validateTurnaround_indep (d : Nat) (p c : Flight) (info : AircraftRow) :
    AircraftValidator.validateTurnaround d p c info
      = AircraftValidator.validateTurnaround 0 p c info := by
  simp only [AircraftValidator.validateTurnaround, turnaroundSecondsD_eq]

theorem validateDailyUtilization_indep (d : Nat) (flights : List Flight)
    (reg : String) :
    AircraftValidator.validateDailyUtilization d flights reg
      = AircraftValidator.validateDailyUtilization 0 flights reg := by
  simp only [AircraftValidator.validateDailyUtilization, flightDurationSecondsD_indep]

theorem validateSorted_indep (d : Nat) (db : DB) (info : AircraftRow)
    (reg : String) :
    ∀ (l : List Flight) (prev : Option Flight),
      AircraftValidator.validateSorted d db info reg l prev
        = AircraftValidator.validateSorted 0 db info reg l prev := by
  intro l
  induction l with
  | nil =>
    intro prev
    rfl
  | cons f rest ih =>
    intro prev
    cases prev with
    | none => simp only [AircraftValidator.validateSorted, ih]
    | some p =>
      simp only [AircraftValidator.validateSorted, validateTurnaround_indep, ih]

theorem aircraftValidate_indep (d : Nat) (flights : List Flight) (db : DB) :
    AircraftValidator.validate d flights db
      = AircraftValidator.validate 0 flights db := by
  simp only [AircraftValidator.validate, validateSorted_indep,
    validateDailyUtilization_indep]

theorem isPotentialConnection_indep (d : Nat) (a b : Flight) :
    MCTValidator.isPotentialConnection d a b
      = MCTValidator.isPotentialConnection 0 a b := by
  simp only [MCTValidator.isPotentialConnection, timeDiffSecondsD_indep]

theorem validateConnectionTime_indep (d : Nat) (db : DB) (a b : Flight) :
    MCTValidator.validateConnectionTime d db a b
      = MCTValidator.validateConnectionTime 0 db a b := by
  simp only [MCTValidator.validateConnectionTime, timeDiffSecondsD_indep]

theorem findConnections_indep (d : Nat) (flights : List Flight) :
    MCTValidator.findConnections d flights
      = MCTValidator.findConnections 0 flights := by
  simp only [MCTValidator.findConnections, isPotentialConnection_indep]

theorem mctValidate_indep (d : Nat) (flights : List Flight) (db : DB) :
    MCTValidator.validate d flights db = MCTValidator.validate 0 flights db := by
  simp only [MCTValidator.validate, findConnections_indep,
    validateConnectionTime_indep]

theorem validateDutyLimits_indep (d : Nat) (db : DB) (f : Flight) :
    CrewValidator.validateDutyLimits d db f
      = CrewValidator.validateDutyLimits 0 db f := by
  simp only [CrewValidator.validateDutyLimits, addMinutesToTime_indep,
    timeDiffSecondsD_indep]

theorem validateRestRequirements_indep (d : Nat) (db : DB) (f : Flight) :
    CrewValidator.validateRestRequirements d db f
      = CrewValidator.validateRestRequirements 0 db f := by
  simp only [CrewValidator.validateRestRequirements, addMinutesToTime_indep,
    timeDiffSecondsD_indep]

theorem crewValidate_indep (d : Nat) (flights : List Flight) (db : DB) :
    CrewValidator.validate d flights db = CrewValidator.validate 0 flights db := by
  simp only [CrewValidator.validate, validateDutyLimits_indep,
    validateRestRequirements_indep]

/-- C8 as amended: with the current date held fixed, every validator is a
deterministic function of (flight set, reference snapshot): the wall-clock
date the source anchors its `datetime.combine(today/now, ...)` arithmetic on
cancels out of every validator, so two runs differ only through the SQL
`CURRENT_DATE` lookups of the curfew (and regulatory) validators. -/
theorem C8_theorem (d₁ d₂ : Nat) (flights : List Flight) (db : DB) (today : Nat) :
    AircraftValidator.validate d₁ flights db
      = AircraftValidator.validate d₂ flights db ∧
    PatternValidator.validate d₁ flights = PatternValidator.validate d₂ flights ∧
    MCTValidator.validate d₁ flights db = MCTValidator.validate d₂ flights db ∧
    CrewValidator.validate d₁ flights db = CrewValidator.validate d₂ flights db ∧
    CurfewValidator.validate db today flights
      = CurfewValidator.validate db today flights ∧
    RegulatoryValidator.validate db today flights
      = RegulatoryValidator.validate db today flights ∧
    SlotValidator.validate flights db = SlotValidator.validate flights db ∧
    RoutingValidator.validate flights db = RoutingValidator.validate flights db :=
  ⟨(aircraftValidate_indep d₁ flights db).trans
      (aircraftValidate_indep d₂ flights db).symm,
   (patternValidate_indep d₁ flights).trans (patternValidate_indep d₂ flights).symm,
   (mctValidate_indep d₁ flights db).trans (mctValidate_indep d₂ flights db).symm,
   (crewValidate_indep d₁ flights db).trans (crewValidate_indep d₂ flights db).symm,
   rfl, rfl, rfl, rfl⟩

/-! Claim C9: validators read but never write. -/

/-- C9: every validator node reads the flight list and the reference snapshot
and hands both back unchanged — the snapshot component threaded through each
node is returned as it was received, the input flight records and schedule
metadata are untouched, and the only effect is binding the node's own
category key to the freshly computed issue list. -/
theorem C9_theorem (nowD today : Nat) (db : DB) (st : Agent.ValidationState) :
    ((Agent.validate_airport_slots db st).2 = db ∧
     (Agent.validate_airport_slots db st).1.flights_to_validate
        = st.flights_to_validate ∧
     (Agent.validate_airport_slots db st).1.schedule_metadata
        = st.schedule_metadata ∧
     (Agent.validate_airport_slots db st).1.validation_results
        = Agent.setResult st.validation_results "slot_validation"
            (SlotValidator.validate st.flights_to_validate db)) ∧
    ((Agent.validate_aircraft_availability nowD db st).2 = db ∧
     (Agent.validate_aircraft_availability nowD db st).1.flights_to_validate
        = st.flights_to_validate ∧
     (Agent.validate_aircraft_availability nowD db st).1.schedule_metadata
        = st.schedule_metadata ∧
     (Agent.validate_aircraft_availability nowD db st).1.validation_results
        = Agent.setResult st.validation_results "aircraft_validation"
            (AircraftValidator.validate nowD st.flights_to_validate db)) ∧
    ((Agent.validate_crew_feasibility nowD db st).2 = db ∧
     (Agent.validate_crew_feasibility nowD db st).1.flights_to_validate
        = st.flights_to_validate ∧
     (Agent.validate_crew_feasibility nowD db st).1.schedule_metadata
        = st.schedule_metadata ∧
     (Agent.validate_crew_feasibility nowD db st).1.validation_results
        = Agent.setResult st.validation_results "crew_validation"
            (CrewValidator.validate nowD st.flights_to_validate db)) ∧
    ((Agent.validate_minimum_connect_times nowD db st).2 = db ∧
     (Agent.validate_minimum_connect_times nowD db st).1.flights_to_validate
        = st.flights_to_validate ∧
     (Agent.validate_minimum_connect_times nowD db st).1.schedule_metadata
        = st.schedule_metadata ∧
     (Agent.validate_minimum_connect_times nowD db st).1.validation_results
        = Agent.setResult st.validation_results "mct_validation"
            (MCTValidator.validate nowD st.flights_to_validate db)) ∧
    ((Agent.validate_airport_hours today db st).2 = db ∧
     (Agent.validate_airport_hours today db st).1.flights_to_validate
        = st.flights_to_validate ∧
     (Agent.validate_airport_hours today db st).1.schedule_metadata
        = st.schedule_metadata ∧
     (Agent.validate_airport_hours today db st).1.validation_results
        = Agent.setResult st.validation_results "curfew_validation"
            (CurfewValidator.validate db today st.flights_to_validate)) ∧
    ((Agent.validate_regulatory_compliance today db st).2 = db ∧
     (Agent.validate_regulatory_compliance today db st).1.flights_to_validate
        = st.flights_to_validate ∧
     (Agent.validate_regulatory_compliance today db st).1.schedule_metadata
        = st.schedule_metadata ∧
     (Agent.validate_regulatory_compliance today db st).1.validation_results
        = Agent.setResult st.validation_results "regulatory_validation"
            (RegulatoryValidator.validate db today st.flights_to_validate)) ∧
    ((Agent.validate_aircraft_routing db st).2 = db ∧
     (Agent.validate_aircraft_routing db st).1.flights_to_validate
        = st.flights_to_validate ∧
     (Agent.validate_aircraft_routing db st).1.schedule_metadata
        = st.schedule_metadata ∧
     (Agent.validate_aircraft_routing db st).1.validation_results
        = Agent.setResult st.validation_results "routing_validation"
            (RoutingValidator.validate st.flights_to_validate db)) ∧
    ((Agent.validate_schedule_patterns nowD db st).2 = db ∧
     (Agent.validate_schedule_patterns nowD db st).1.flights_to_validate
        = st.flights_to_validate ∧
     (Agent.validate_schedule_patterns nowD db st).1.schedule_metadata
        = st.schedule_metadata ∧
     (Agent.validate_schedule_patterns nowD db st).1.validation_results
        = Agent.setResult st.validation_results "pattern_validation"
            (PatternValidator.validate nowD st.flights_to_validate)) :=
  ⟨⟨rfl, rfl, rfl, rfl⟩, ⟨rfl, rfl, rfl, rfl⟩, ⟨rfl, rfl, rfl, rfl⟩,
   ⟨rfl, rfl, rfl, rfl⟩, ⟨rfl, rfl, rfl, rfl⟩, ⟨rfl, rfl, rfl, rfl⟩,
   ⟨rfl, rfl, rfl, rfl⟩, ⟨rfl, rfl, rfl, rfl⟩⟩

/-! Claim C10: flights without a registration receive no aircraft/routing
issues. -/

theorem mem_validateAircraftType {f : Flight} {info : AircraftRow} {i : Issue}
    (h : i ∈ AircraftValidator.validateAircraftType f info) :
    i.flight_id = f.flight_id := by
  unfold AircraftValidator.validateAircraftType at h
  split at h
  · rw [List.mem_singleton.mp h]
  · cases h

theorem mem_validateMaintenance {db : DB} {f : Flight} {reg : String} {i : Issue}
    (h : i ∈ AircraftValidator.validateMaintenance db f reg) :
    i.flight_id = f.flight_id := by
  unfold AircraftValidator.validateMaintenance at h
  split at h
  · rw [List.mem_singleton.mp h]
  · cases h

theorem mem_validateTurnaround {nowD : Nat} {p c : Flight} {info : AircraftRow}
    {i : Issue} (h : i ∈ AircraftValidator.validateTurnaround nowD p c info) :
    i.flight_id = c.flight_id := by
  unfold AircraftValidator.validateTurnaround at h
  simp only [] at h
  split at h
  · rw [List.mem_singleton.mp h]
  · cases h

theorem mem_validateRoutingContinuity {p c : Flight} {i : Issue}
    (h : i ∈ AircraftValidator.validateRoutingContinuity p c) :
    i.flight_id = c.flight_id := by
  unfold AircraftValidator.validateRoutingContinuity at h
  split at h
  · rw [List.mem_singleton.mp h]
  · cases h

theorem validateSorted_ids (nowD : Nat) (db : DB) (info : AircraftRow)
    (reg : String) :
    ∀ (l : List Flight) (prev : Option Flight) (i : Issue),
      i ∈ AircraftValidator.validateSorted nowD db info reg l prev →
      ∃ g ∈ l, i.flight_id = g.flight_id := by
  intro l
  induction l with
  | nil =>
    intro prev i h
    cases h
  | cons f rest ih =>
    intro prev i h
    unfold AircraftValidator.validateSorted at h
    rcases List.mem_append.mp h with h1 | hrec
    · rcases List.mem_append.mp h1 with h2 | h3
      · rcases List.mem_append.mp h2 with h4 | h5
        · exact ⟨f, List.mem_cons_self f rest, mem_validateAircraftType h4⟩
        · exact ⟨f, List.mem_cons_self f rest, mem_validateMaintenance h5⟩
      · cases prev with
        | none => cases h3
        | some p =>
          rcases List.mem_append.mp h3 with h6 | h7
          · exact ⟨f, List.mem_cons_self f rest, mem_validateTurnaround h6⟩
          · exact ⟨f, List.mem_cons_self f rest, mem_validateRoutingContinuity h7⟩
    · rcases ih (some f) i hrec with ⟨g, hg, hid⟩
      exact ⟨g, List.mem_cons_of_mem f hg, hid⟩

theorem validateDailyUtilization_ids (nowD : Nat) (flights : List Flight)
    (reg : String) (i : Issue)
    (h : i ∈ AircraftValidator.validateDailyUtilization nowD flights reg) :
    ∃ g ∈ flights, i.flight_id = g.flight_id := by
  unfold AircraftValidator.validateDailyUtilization at h
  rcases List.mem_flatMap.mp h with ⟨p, hp, hi⟩
  have hmem := groupByKey_mem (fun f => some f.effective_from) flights p hp
  simp only [] at hi
  split at hi
  · rename_i hcond
    cases hgrp : p.2 with
    | nil =>
      rw [hgrp] at hcond
      simp at hcond
    | cons g rest =>
      rw [hgrp] at hi
      refine ⟨g, (hmem g (by rw [hgrp]; exact List.mem_cons_self g rest)).1, ?_⟩
      rw [List.mem_singleton.mp hi]
  · cases hi

theorem mem_groupByAircraft (flights : List Flight) (p : String × List Flight)
    (hp : p ∈ AircraftValidator.groupByAircraft flights) :
    ∀ g ∈ p.2, g ∈ flights ∧ truthyStr g.aircraft_registration = true := by
  intro g hg
  unfold AircraftValidator.groupByAircraft at hp
  have hkey := groupByKey_mem _ flights p hp g hg
  refine ⟨hkey.1, ?_⟩
  have h2 : (match g.aircraft_registration with
      | none => none
      | some r => if r = "" then none else some r) = some p.1 := hkey.2
  cases hreg : g.aircraft_registration with
  | none =>
    rw [hreg] at h2
    cases h2
  | some r =>
    rw [hreg] at h2
    by_cases hr : r = ""
    · simp [hr] at h2
    · simp [truthyStr, hr]

theorem aircraftValidate_ids (nowD : Nat) (flights : List Flight) (db : DB)
    (i : Issue) (h : i ∈ AircraftValidator.validate nowD flights db) :
    ∃ g ∈ flights,
      truthyStr g.aircraft_registration = true ∧ i.flight_id = g.flight_id := by
  unfold AircraftValidator.validate at h
  rcases List.mem_flatMap.mp h with ⟨p, hp, hi⟩
  have hmem := mem_groupByAircraft flights p hp
  simp only [] at hi
  cases hinfo : AircraftValidator.getAircraftInfo db p.1 with
  | none =>
    simp only [hinfo] at hi
    rcases List.mem_map.mp hi with ⟨g, hg, hgi⟩
    exact ⟨g, (hmem g hg).1, (hmem g hg).2, by rw [← hgi]⟩
  | some info =>
    simp only [hinfo] at hi
    split at hi
    · rcases List.mem_map.mp hi with ⟨g, hg, hgi⟩
      exact ⟨g, (hmem g hg).1, (hmem g hg).2, by rw [← hgi]⟩
    · rcases List.mem_append.mp hi with h1 | h2
      · rcases validateSorted_ids nowD db info p.1 _ none i h1 with ⟨g, hgs, hid⟩
        have hg2 := (mem_sortByKey (fun f => f.departure_time) g p.2).mp hgs
        exact ⟨g, (hmem g hg2).1, (hmem g hg2).2, hid⟩
      · rcases validateDailyUtilization_ids nowD _ p.1 i h2 with ⟨g, hgs, hid⟩
        have hg2 := (mem_sortByKey (fun f => f.departure_time) g p.2).mp hgs
        exact ⟨g, (hmem g hg2).1, (hmem g hg2).2, hid⟩

theorem mem_groupByAircraftAndDate (flights : List Flight)
    (p : (String × Nat) × List Flight)
    (hp : p ∈ RoutingValidator.groupByAircraftAndDate flights) :
    ∀ g ∈ p.2, g ∈ flights ∧ truthyStr g.aircraft_registration = true := by
  intro g hg
  unfold RoutingValidator.groupByAircraftAndDate at hp
  have hkey := groupByKey_mem _ flights p hp g hg
  refine ⟨hkey.1, ?_⟩
  have h2 : (match g.aircraft_registration, g.effective_from with
      | some r, some d => if r = "" then none else some (r, d)
      | _, _ => none) = some p.1 := hkey.2
  cases hreg : g.aircraft_registration with
  | none =>
    rw [hreg] at h2
    cases heff : g.effective_from with
    | none => rw [heff] at h2; simp at h2
    | some d => rw [heff] at h2; simp at h2
  | some r =>
    rw [hreg] at h2
    cases heff : g.effective_from with
    | none =>
      rw [heff] at h2
      simp at h2
    | some d =>
      rw [heff] at h2
      by_cases hr : r = ""
      · simp [hr] at h2
      · simp [truthyStr, hr]

theorem validateRoutingChain_ids (flights : List Flight) (reg : String)
    (date : Nat) (i : Issue)
    (h : i ∈ RoutingValidator.validateRoutingChain flights reg date) :
    ∃ g ∈ flights, i.flight_id = g.flight_id := by
  unfold RoutingValidator.validateRoutingChain at h
  rcases List.mem_append.mp h with h1 | h2
  · rcases List.mem_flatMap.mp h1 with ⟨q, hq, hi⟩
    rcases q with ⟨q1, q2⟩
    have hq2 := (List.of_mem_zip hq).2
    split at hi
    · split at hi
      · cases hi
      · refine ⟨q2, List.mem_of_mem_tail hq2, ?_⟩
        rw [List.mem_singleton.mp hi]
    · cases hi
  · cases hh : flights.head? with
    | none =>
      cases hl : flights.getLast? with
      | none => simp only [hh, hl] at h2; cases h2
      | some lf => simp only [hh, hl] at h2; cases h2
    | some ff =>
      cases hl : flights.getLast? with
      | none =>
        simp only [hh, hl] at h2
        cases h2
      | some lf =>
        simp only [hh, hl] at h2
        split at h2
        · refine ⟨lf, List.mem_of_mem_getLast? hl, ?_⟩
          rw [List.mem_singleton.mp h2]
        · cases h2

theorem validateRangeLimitations_ids (db : DB) (flights : List Flight) (i : Issue)
    (h : i ∈ RoutingValidator.validateRangeLimitations db flights) :
    ∃ g ∈ flights, i.flight_id = g.flight_id := by
  unfold RoutingValidator.validateRangeLimitations at h
  rcases List.mem_flatMap.mp h with ⟨g, hg, hi⟩
  refine ⟨g, hg, ?_⟩
  simp only [] at hi
  split at hi
  · split at hi
    · cases hi
    · rw [List.mem_singleton.mp hi]
  · cases hi

theorem validateHubConnectivity_ids (flights : List Flight) (i : Issue)
    (h : i ∈ RoutingValidator.validateHubConnectivity flights) :
    ∃ g ∈ flights, i.flight_id = g.flight_id := by
  unfold RoutingValidator.validateHubConnectivity at h
  simp only [] at h
  split at h
  · rename_i hcond
    cases hfl : flights with
    | nil =>
      rw [hfl] at hcond
      simp at hcond
    | cons g rest =>
      rw [hfl] at h
      refine ⟨g, by simp [hfl], ?_⟩
      rw [List.mem_singleton.mp h]
  · cases h

theorem checkPositioningEfficiency_ids (flights : List Flight) (i : Issue)
    (h : i ∈ RoutingValidator.checkPositioningEfficiency flights) :
    ∃ g ∈ flights, i.flight_id = g.flight_id := by
  unfold RoutingValidator.checkPositioningEfficiency at h
  rcases List.mem_flatMap.mp h with ⟨g, hg, hi⟩
  refine ⟨g, hg, ?_⟩
  split at hi
  · rw [List.mem_singleton.mp hi]
  · cases hi

theorem routingValidate_ids (flights : List Flight) (db : DB) (i : Issue)
    (h : i ∈ RoutingValidator.validate flights db) :
    ∃ g ∈ flights,
      truthyStr g.aircraft_registration = true ∧ i.flight_id = g.flight_id := by
  unfold RoutingValidator.validate at h
  rcases List.mem_flatMap.mp h with ⟨p, hp, hi⟩
  have hmem := mem_groupByAircraftAndDate flights p hp
  simp only [] at hi
  have sorted_ids : ∀ j : Issue,
      (∃ g ∈ sortByKey (fun f => f.departure_time) p.2, j.flight_id = g.flight_id) →
      ∃ g ∈ flights,
        truthyStr g.aircraft_registration = true ∧ j.flight_id = g.flight_id := by
    intro j ⟨g, hgs, hid⟩
    have hg2 := (mem_sortByKey (fun f => f.departure_time) g p.2).mp hgs
    exact ⟨g, (hmem g hg2).1, (hmem g hg2).2, hid⟩
  rcases List.mem_append.mp hi with h1 | h4
  · rcases List.mem_append.mp h1 with h2 | h3
    · rcases List.mem_append.mp h2 with ha | hb
      · exact sorted_ids i (validateRoutingChain_ids _ p.1.1 p.1.2 i ha)
      · exact sorted_ids i (validateRangeLimitations_ids db _ i hb)
    · exact sorted_ids i (validateHubConnectivity_ids _ i h3)
  · exact sorted_ids i (checkPositioningEfficiency_ids _ i h4)

/-- C10: a flight whose aircraft registration is absent or empty (and whose
flight id no registered flight shares) is referenced by no issue of the
aircraft validator or the routing validator: such flights are skipped by both
registration groupings, so none of the per-tail checks apply to them. -/
theorem C10_theorem (nowD : Nat) (flights : List Flight) (db : DB) (f : Flight)
    (hf : f ∈ flights) (hreg : truthyStr f.aircraft_registration = false)
    (huniq : ∀ g ∈ flights, g.flight_id = f.flight_id →
      truthyStr g.aircraft_registration = false) :
    (∀ i ∈ AircraftValidator.validate nowD flights db,
      i.flight_id ≠ f.flight_id) ∧
    (∀ i ∈ RoutingValidator.validate flights db, i.flight_id ≠ f.flight_id) := by
  constructor
  · intro i hi heq
    rcases aircraftValidate_ids nowD flights db i hi with ⟨g, hg, htr, hid⟩
    rw [huniq g hg (by rw [← hid, heq])] at htr
    cases htr
  · intro i hi heq
    rcases routingValidate_ids flights db i hi with ⟨g, hg, htr, hid⟩
    rw [huniq g hg (by rw [← hid, heq])] at htr
    cases htr

/-- Flight without a registration used by the C10 witness. -/
def w10f : Flight :=
  { flight_id := "W10", flight_number := "CM901", carrier_code := "CM",
    origin_airport := "PTY", destination_airport := "MIA",
    departure_time := 28800, arrival_time := 41400,
    operating_days := "1234567", aircraft_type := "738",
    effective_from := some 100 }

/-- Registered companion flight of the C10 witness. -/
def w10g : Flight :=
  { flight_id := "W11", flight_number := "CM902", carrier_code := "CM",
    origin_airport := "MIA", destination_airport := "PTY",
    departure_time := 50400, arrival_time := 63000,
    operating_days := "1234567", aircraft_type := "738",
    effective_from := some 100, aircraft_registration := some "HP-200" }

/-- Snapshot for the C10 witness (the registered tail exists and is active). -/
def w10db : DB :=
  { aircraft_availability :=
      [{ registration := "HP-200", aircraft_type := "738", status := "active" }] }

/-- C10 witness: in the concrete two-flight schedule, no aircraft- or
routing-validation issue references the unregistered flight. -/
theorem C10_witness :
    (AircraftValidator.validate 0 [w10f, w10g] w10db).all
        (fun i => !(i.flight_id == "W10")) = true ∧
    (RoutingValidator.validate [w10f, w10g] w10db).all
        (fun i => !(i.flight_id == "W10")) = true := by
  have h := C10_theorem 0 [w10f, w10g] w10db w10f
    (List.mem_cons_self w10f [w10g]) (by decide) (by decide)
  constructor
  · apply List.all_eq_true.mpr
    intro i hi
    have hne := h.1 i hi
    simpa using hne
  · apply List.all_eq_true.mpr
    intro i hi
    have hne := h.2 i hi
    simpa using hne
